import Mathlib

/-!
Verification of the kernel-dispatch and launch-orchestration layer of a fused
dropout + residual-add + layer-norm forward pass (source: src/kernels/ln_api.cpp).

The embedding below translates the dispatch layer into Lean:
tensors are modelled by their metadata (dtype, sizes, device residency,
contiguity); the fatal TORCH_CHECK failures become an error result; buffer
allocations, launcher invocations and RNG-counter updates are recorded as an
event trace so that ordering and resource-lifecycle properties can be stated.
The kernel registry, the specialized launchers and the random generator are
external collaborators and appear as parameters of the dispatch call.
-/

namespace layer_norm

/-- Numeric element types of the tensor runtime that this layer can see.
The first three are the precisions supported by the type encoder; the
remaining ones occur as mask/index dtypes or as unsupported inputs. -/
inductive Dtype where
  | fp16 : Dtype
  | bf16 : Dtype
  | fp32 : Dtype
  | uint8 : Dtype
  | int32 : Dtype
  | fp64 : Dtype
deriving DecidableEq, Repr, Fintype

/-- The three precisions accepted by the type encoder (get_type_id). -/
def Dtype.supported : Dtype → Bool
  | .fp16 => true
  | .bf16 => true
  | .fp32 => true
  | _ => false

/-- Errors of the dispatch layer: precondition violations (TORCH_CHECK on the
validation contract), unsupported element type (get_type_id), and
unsupported configuration (registry miss in get_fwd_launcher; it carries the
hidden size and the five precisions that the C++ error message names). -/
inductive PrecondViolation where
  | x0_not_cuda | gamma_not_cuda | x0_not_contiguous | x0_dim_not_2
  | hidden_size_mismatch
  | beta_dtype | beta_not_cuda | beta_not_contiguous | beta_sizes
  | residual_not_cuda | residual_not_contiguous | residual_sizes
  | rowscale_not_cuda | rowscale_not_contiguous | rowscale_sizes | rowscale_dtype
  | colscale_not_cuda | colscale_not_contiguous | colscale_sizes | colscale_dtype
  | x0_subset_not_cuda | x0_subset_not_contiguous | x0_subset_sizes | x0_subset_dtype
  | z_subset_missing | z_subset_not_cuda | z_subset_not_contiguous
  | z_subset_sizes | z_subset_dtype
  | hidden_size_range | epsilon_negative | dropout_p_range
deriving DecidableEq, Repr

inductive FwdError where
  | precondition : PrecondViolation → FwdError
  | unsupportedType : Dtype → FwdError
  | unsupportedConfig : Nat → Dtype → Dtype → Dtype → Dtype → Dtype → FwdError
deriving DecidableEq, Repr

instance {ε α : Type} [DecidableEq ε] [DecidableEq α] : DecidableEq (Except ε α)
  | .error e, .error f =>
    if h : e = f then .isTrue (congrArg Except.error h)
    else .isFalse fun c => h (Except.error.inj c)
  | .error _, .ok _ => .isFalse fun c => Except.noConfusion c
  | .ok _, .error _ => .isFalse fun c => Except.noConfusion c
  | .ok x, .ok y =>
    if h : x = y then .isTrue (congrArg Except.ok h)
    else .isFalse fun c => h (Except.ok.inj c)

/-- Modelled from the spec: the 2-bit type codes come from TypeId in ln.h,
which is not part of the given sources; the spec (section 4.1) states that the
encoder maps the three supported precisions to stable, distinct 2-bit codes. -/
def typeIdVal : Dtype → Nat
  | .fp16 => 0
  | .bf16 => 1
  | .fp32 => 2
  | _ => 0

/-- Translation of get_type_id: returns the 2-bit code of a supported
precision and fails fatally on any other dtype. -/
def get_type_id (dtype : Dtype) : Except FwdError Nat :=
  if dtype = .fp16 then .ok (typeIdVal .fp16)
  else if dtype = .bf16 then .ok (typeIdVal .bf16)
  else if dtype = .fp32 then .ok (typeIdVal .fp32)
  else .error (.unsupportedType dtype)

/-- Translation of get_key: packs the five 2-bit type codes into bits 32..41
and the hidden size into bits 0..31 of a 64-bit key.  All arithmetic is on
Nat with the 64-bit wraparound of the C++ uint64_t made explicit. -/
def get_key (wtype itype rtype otype ctype : Dtype) (hidden_size : Nat) :
    Except FwdError Nat := do
  let w ← get_type_id wtype
  let i ← get_type_id itype
  let r ← get_type_id rtype
  let o ← get_type_id otype
  let c ← get_type_id ctype
  let type_key := w ||| (i <<< 2) ||| (r <<< 4) ||| (o <<< 6) ||| (c <<< 8)
  return ((type_key <<< 32) % 2 ^ 64) ||| (hidden_size % 2 ^ 64)

/-- Per-call kernel parameters (layer_norm::FwdParams), with raw device
pointers modelled by presence flags. -/
structure FwdParams where
  rows : Nat
  cols : Nat
  dropout_keep_p : ℚ
  residual : Bool
  rowscale : Bool
  colscale : Bool
  x0_subset : Bool
  z_subset : Bool
  x : Bool
  dmask : Bool
  beta : Bool
  epsilon : ℚ
  dropout_scale : ℚ
  inverse_cols : ℚ
  rowscale_const : ℚ
  is_rms_norm : Bool
  philox_set : Bool
  philox_seed : Nat
  philox_offset : Nat
  workspace : Bool
  barrier : Bool
deriving DecidableEq, Repr

/-- Resource requirements reported by the Query phase of a launcher
(the fields of LaunchParams that the launcher fills in). -/
structure QueryOut where
  elts_per_thread : Nat
  barrier_size : Nat
  workspace_bytes : Nat
deriving DecidableEq, Repr

/-- A registered specialized kernel launcher.  Its Query phase is a pure
function of the launch parameters; its Execute phase is opaque to this layer
and is recorded only as an event. -/
structure FwdLauncher where
  query : FwdParams → QueryOut

/-- The forward registry (layer_norm::FWD_FUNCS), abstracted as a partial map
from 64-bit keys to launchers.  It is populated by static registration code
outside the given sources and is read-only during dispatch. -/
def FwdRegistry : Type := Nat → Option FwdLauncher

/-- Translation of get_fwd_launcher: exact-match lookup of the packed key;
a miss is a fatal error naming the (32-bit) hidden size and the five
precisions. -/
def get_fwd_launcher (reg : FwdRegistry) (wtype itype rtype otype ctype : Dtype)
    (hidden_size : Nat) : Except FwdError FwdLauncher := do
  let key ← get_key wtype itype rtype otype ctype (hidden_size % 2 ^ 32)
  match reg key with
  | some f => .ok f
  | none => .error (.unsupportedConfig (hidden_size % 2 ^ 32) wtype itype rtype otype ctype)

/-- Translation of the round_multiple lambda: (x + m - 1) / m * m. -/
def round_multiple (x m : Nat) : Nat := (x + m - 1) / m * m

/-- The bucket granularity chosen for a hidden size (the local variable
named multiple in dropout_add_ln_fwd). -/
def fwd_multiple (hidden_size : Nat) : Nat :=
  if hidden_size ≤ 1536 then 256 else if hidden_size ≤ 3072 then 512 else 1024

/-- A tensor as seen by the validation layer: element type, shape, device
residency and contiguity. -/
structure Tensor where
  dtype : Dtype
  sizes : List Nat
  is_cuda : Bool
  is_contiguous : Bool
deriving DecidableEq, Repr

def Tensor.dim (t : Tensor) : Nat := t.sizes.length

def Tensor.size (t : Tensor) (i : Nat) : Nat := t.sizes.getD i 0

def Tensor.numel (t : Tensor) : Nat := t.sizes.prod

/-- The arguments of dropout_add_ln_fwd.  Optional tensors mirror the
c10::optional parameters; the float scalars are modelled as rationals. -/
structure FwdArgs where
  x0 : Tensor
  residual_ : Option Tensor
  gamma : Tensor
  beta_ : Option Tensor
  rowscale_ : Option Tensor
  colscale_ : Option Tensor
  x0_subset_ : Option Tensor
  z_subset_ : Option Tensor
  dropout_p : ℚ
  epsilon : ℚ
  rowscale_const : ℚ
  z_numrows : Nat
  residual_in_fp32 : Bool
  is_rms_norm : Bool
deriving DecidableEq, Repr

/-- The logical row count: sizes[0] is x0_subset.size(0) when a row-gather
index is supplied, otherwise x0.size(0). -/
def fwd_rows (a : FwdArgs) : Nat :=
  match a.x0_subset_ with
  | some s => s.size 0
  | none => a.x0.size 0

/-- The column count: sizes[1] = x0.size(1). -/
def fwd_cols (a : FwdArgs) : Nat := a.x0.size 1

/-- The derived residual precision rtype: the residual tensor's dtype when a
residual is given, else fp32 when residual_in_fp32 is set, else the input
dtype. -/
def fwd_rtype (a : FwdArgs) : Dtype :=
  match a.residual_ with
  | some r => r.dtype
  | none => if a.residual_in_fp32 then .fp32 else a.x0.dtype

/-- The save_x decision: whether the pre-normalization intermediate must be
materialized. -/
def save_x_cond (a : FwdArgs) : Bool :=
  a.residual_.isSome || decide ((0 : ℚ) < a.dropout_p) || a.rowscale_.isSome ||
    a.colscale_.isSome || a.x0_subset_.isSome || decide (a.x0.dtype ≠ fwd_rtype a)

/-- Validation of the optional beta tensor (dtype, residency, contiguity,
shape against gamma). -/
def check_beta (a : FwdArgs) : Option PrecondViolation :=
  match a.beta_ with
  | none => none
  | some beta =>
    if ¬ (beta.dtype = a.gamma.dtype) then some .beta_dtype
    else if ¬ beta.is_cuda then some .beta_not_cuda
    else if ¬ beta.is_contiguous then some .beta_not_contiguous
    else if ¬ (beta.sizes = a.gamma.sizes) then some .beta_sizes
    else none

/-- Validation of the optional residual tensor (residency, contiguity, shape
against the logical sizes). -/
def check_residual (a : FwdArgs) : Option PrecondViolation :=
  match a.residual_ with
  | none => none
  | some residual =>
    if ¬ residual.is_cuda then some .residual_not_cuda
    else if ¬ residual.is_contiguous then some .residual_not_contiguous
    else if ¬ (residual.sizes = [fwd_rows a, fwd_cols a]) then some .residual_sizes
    else none

/-- Validation of the optional rowscale vector. -/
def check_rowscale (a : FwdArgs) : Option PrecondViolation :=
  match a.rowscale_ with
  | none => none
  | some rowscale =>
    if ¬ rowscale.is_cuda then some .rowscale_not_cuda
    else if ¬ rowscale.is_contiguous then some .rowscale_not_contiguous
    else if ¬ (rowscale.sizes = [fwd_rows a]) then some .rowscale_sizes
    else if ¬ (rowscale.dtype = a.x0.dtype) then some .rowscale_dtype
    else none

/-- Validation of the optional colscale vector. -/
def check_colscale (a : FwdArgs) : Option PrecondViolation :=
  match a.colscale_ with
  | none => none
  | some colscale =>
    if ¬ colscale.is_cuda then some .colscale_not_cuda
    else if ¬ colscale.is_contiguous then some .colscale_not_contiguous
    else if ¬ (colscale.sizes = [fwd_cols a]) then some .colscale_sizes
    else if ¬ (colscale.dtype = a.gamma.dtype) then some .colscale_dtype
    else none

/-- Validation of the gather/scatter index pair: this block runs only when
x0_subset is present, and then also demands and validates z_subset. -/
def check_subset (a : FwdArgs) : Option PrecondViolation :=
  match a.x0_subset_ with
  | none => none
  | some x0_subset =>
    if ¬ x0_subset.is_cuda then some .x0_subset_not_cuda
    else if ¬ x0_subset.is_contiguous then some .x0_subset_not_contiguous
    else if ¬ (x0_subset.sizes = [fwd_rows a]) then some .x0_subset_sizes
    else if ¬ (x0_subset.dtype = .int32) then some .x0_subset_dtype
    else
      match a.z_subset_ with
      | none => some .z_subset_missing
      | some z_subset =>
        if ¬ z_subset.is_cuda then some .z_subset_not_cuda
        else if ¬ z_subset.is_contiguous then some .z_subset_not_contiguous
        else if ¬ (z_subset.sizes = [fwd_rows a]) then some .z_subset_sizes
        else if ¬ (z_subset.dtype = .int32) then some .z_subset_dtype
        else none

/-- The numeric-range checks of lines 159-160: hidden size a multiple of 8
and at most 8192, epsilon non-negative.  (The dropout bound is checked later,
after the output allocations, as in the source.) -/
def check_numeric (a : FwdArgs) : Option PrecondViolation :=
  if ¬ (a.gamma.numel % 8 = 0 ∧ a.gamma.numel ≤ 8192) then some .hidden_size_range
  else if a.epsilon < 0 then some .epsilon_negative
  else none

/-- First failure in a sequence of checks. -/
def firstErr : List (Option PrecondViolation) → Option PrecondViolation
  | [] => none
  | some v :: _ => some v
  | none :: rest => firstErr rest

/-- All TORCH_CHECK validation performed before the first buffer allocation
(lines 96-160 of the source), in source order. -/
def validate (a : FwdArgs) : Option PrecondViolation :=
  if ¬ a.x0.is_cuda then some .x0_not_cuda
  else if ¬ a.gamma.is_cuda then some .gamma_not_cuda
  else if ¬ a.x0.is_contiguous then some .x0_not_contiguous
  else if ¬ (a.x0.dim = 2) then some .x0_dim_not_2
  else if ¬ (a.gamma.numel = fwd_cols a) then some .hidden_size_mismatch
  else firstErr [check_beta a, check_residual a, check_rowscale a,
                 check_colscale a, check_subset a, check_numeric a]

/-- Observable steps of one dispatch call: buffer allocations, the two
launcher phases (each carrying the parameter payload it receives), and the
RNG counter advance (recording the seed/offset pair issued and the draw
count consumed). -/
inductive Event where
  | alloc_x : Event
  | alloc_dmask : Event
  | alloc_z : Event
  | alloc_mu : Event
  | alloc_rsigma : Event
  | query : FwdParams → Event
  | rng_advance : Nat → Nat → Nat → Event
  | alloc_barrier : Bool → Nat → Event
  | alloc_workspace : Nat → Event
  | execute : FwdParams → Event
deriving DecidableEq, Repr

/-- State of the process-wide CUDA random generator: a seed and the philox
counter offset. -/
structure GenState where
  seed : Nat
  offset : Nat
deriving DecidableEq, Repr

/-- Modelled from the spec: philox_cuda_state of the external generator
collaborator (section 6) returns the current seed/offset pair and advances
the counter by the requested per-thread draw count. -/
def philox_cuda_state (g : GenState) (increment : Nat) : (Nat × Nat) × GenState :=
  ((g.seed, g.offset), ⟨g.seed, g.offset + increment⟩)

/-- The five tensors returned by dropout_add_ln_fwd.  The saved intermediate
x and the dropout mask are empty (none) when they were not allocated. -/
structure FwdOutput where
  z : Tensor
  x : Option Tensor
  dmask : Option Tensor
  mu : Tensor
  rsigma : Tensor
deriving DecidableEq, Repr

/-- Result of one dispatch call: the event trace up to completion or fatal
failure, and either the output bundle with the updated generator state or
the error. -/
structure FwdResult where
  trace : List Event
  result : Except FwdError (FwdOutput × GenState)
deriving Repr

/-- Allocation events of lines 166-176: the saved intermediate (when save_x),
the dropout mask (when dropout is active), then z, mu, rsigma. -/
def fwd_alloc_trace (a : FwdArgs) : List Event :=
  (if save_x_cond a then [Event.alloc_x] else []) ++
    (if (0 : ℚ) < a.dropout_p then [Event.alloc_dmask] else []) ++
    [Event.alloc_z, Event.alloc_mu, Event.alloc_rsigma]

/-- The output bundle as allocated by lines 166-176: z has otype = itype and
scatter-aware extent, x (if saved) has the residual precision and the logical
sizes, dmask (if dropout) covers the full physical input, mu and rsigma are
fp32 per-row statistics. -/
def fwd_out (a : FwdArgs) : FwdOutput where
  z := ⟨a.x0.dtype,
        if a.z_subset_.isSome then [a.z_numrows, fwd_cols a] else [fwd_rows a, fwd_cols a],
        true, true⟩
  x := if save_x_cond a then some ⟨fwd_rtype a, [fwd_rows a, fwd_cols a], true, true⟩ else none
  dmask := if (0 : ℚ) < a.dropout_p then some ⟨.uint8, a.x0.sizes, true, true⟩ else none
  mu := ⟨.fp32, [fwd_rows a], true, true⟩
  rsigma := ⟨.fp32, [fwd_rows a], true, true⟩

/-- The launch parameters assembled by lines 183-214 (before the Query
phase): scalar configuration plus presence flags for every pointer; the
philox state and scratch pointers are not yet set. -/
def fwd_params (a : FwdArgs) : FwdParams where
  rows := fwd_rows a
  cols := fwd_cols a
  dropout_keep_p := 1 - a.dropout_p
  residual := a.residual_.isSome
  rowscale := a.rowscale_.isSome
  colscale := a.colscale_.isSome
  x0_subset := a.x0_subset_.isSome
  z_subset := a.z_subset_.isSome
  x := save_x_cond a
  dmask := decide ((0 : ℚ) < a.dropout_p)
  beta := a.beta_.isSome
  epsilon := a.epsilon
  dropout_scale := 1 / (1 - a.dropout_p)
  inverse_cols := 1 / (fwd_cols a : ℚ)
  rowscale_const := a.rowscale_const
  is_rms_norm := a.is_rms_norm
  philox_set := false
  philox_seed := 0
  philox_offset := 0
  workspace := false
  barrier := false

/-- Translation of dropout_add_ln_fwd, given the registry and generator as
explicit collaborators.  The stages follow the source: validation (lines
96-160), output allocation (166-176), the late dropout bound check (182),
launcher resolution through bucket rounding (193-196), the Query phase (217),
the RNG counter advance under the generator lock (221-231), conditional
barrier/workspace allocation (233-239), and the Execute phase (242). -/
def dropout_add_ln_fwd (a : FwdArgs) (reg : FwdRegistry) (gen : GenState) : FwdResult :=
  match validate a with
  | some v => ⟨[], .error (.precondition v)⟩
  | none =>
    let tr0 := fwd_alloc_trace a
    if ¬ (a.dropout_p < 1) then ⟨tr0, .error (.precondition .dropout_p_range)⟩
    else
      match get_fwd_launcher reg a.gamma.dtype a.x0.dtype (fwd_rtype a) a.x0.dtype .fp32
          (round_multiple a.gamma.numel (fwd_multiple a.gamma.numel)) with
      | .error e => ⟨tr0, .error e⟩
      | .ok launcher =>
        let params0 := fwd_params a
        let q := launcher.query params0
        let tr1 := tr0 ++ [Event.query params0]
        let step2 :=
          if (0 : ℚ) < a.dropout_p then
            let st := philox_cuda_state gen q.elts_per_thread
            ({ params0 with
                philox_set := true
                philox_seed := st.1.1
                philox_offset := st.1.2 },
             st.2, tr1 ++ [Event.rng_advance st.1.1 st.1.2 q.elts_per_thread])
          else (params0, gen, tr1)
        let step3 :=
          if 0 < q.barrier_size then
            ({ step2.1 with workspace := true, barrier := true },
             step2.2.1,
             step2.2.2 ++ [Event.alloc_barrier true q.barrier_size,
                           Event.alloc_workspace q.workspace_bytes])
          else step2
        ⟨step3.2.2 ++ [Event.execute step3.1], .ok (fwd_out a, step3.2.1)⟩

/-- Recognizer for Query-phase events. -/
def Event.isQuery : Event → Bool
  | .query _ => true
  | _ => false

/-- Recognizer for Execute-phase events. -/
def Event.isExecute : Event → Bool
  | .execute _ => true
  | _ => false

/-- Recognizer for scratch-resource (barrier or workspace) allocation
events. -/
def Event.isScratchAlloc : Event → Bool
  | .alloc_barrier _ _ => true
  | .alloc_workspace _ => true
  | _ => false

/-- The launch parameters after the RNG step: the philox state is filled in
exactly when dropout is active. -/
def fwd_rng_params (a : FwdArgs) (gen : GenState) : FwdParams :=
  if (0 : ℚ) < a.dropout_p then
    { fwd_params a with philox_set := true, philox_seed := gen.seed,
                        philox_offset := gen.offset }
  else fwd_params a

/-- The launch parameters passed to the Execute phase: scratch references are
set exactly when the Query phase reported a positive barrier size. -/
def fwd_exec_params (a : FwdArgs) (gen : GenState) (q : QueryOut) : FwdParams :=
  if 0 < q.barrier_size then
    { fwd_rng_params a gen with workspace := true, barrier := true }
  else fwd_rng_params a gen

/-- The sum of the five type codes weighted by their 2-bit field positions;
the arithmetic reading of the bit-packed type key. -/
def typeKeyVal (wtype itype rtype otype ctype : Dtype) : Nat :=
  typeIdVal wtype + 4 * typeIdVal itype + 16 * typeIdVal rtype +
    64 * typeIdVal otype + 256 * typeIdVal ctype

/-! Concrete fixtures used by the witness theorems: a small all-fp32
configuration with hidden size 256, a one-entry registry holding a launcher
for its dispatch key, and variants exercising dropout and gather/scatter. -/

/-- A 4 x 256 contiguous fp32 device tensor. -/
def t_x0 : Tensor := ⟨.fp32, [4, 256], true, true⟩

/-- A 256-element fp32 weight vector. -/
def t_gamma : Tensor := ⟨.fp32, [256], true, true⟩

/-- A plain call: no optional buffers, dropout 0, epsilon 0. -/
def args_plain : FwdArgs :=
  ⟨t_x0, none, t_gamma, none, none, none, none, none, 0, 0, 1, 0, false, false⟩

/-- The same call with dropout probability 1/2. -/
def args_dropout : FwdArgs := { args_plain with dropout_p := mkRat 1 2 }

/-- The same call with dropout probability exactly 1. -/
def args_dropout_one : FwdArgs := { args_plain with dropout_p := 1 }

/-- A 2-row zero-column input, making the weight element count zero. -/
def args_zero_hidden : FwdArgs :=
  ⟨⟨.fp32, [2, 0], true, true⟩, none, ⟨.fp32, [0], true, true⟩,
    none, none, none, none, none, 0, 0, 1, 0, false, false⟩

/-- A call that supplies only the row-scatter index (no gather index). -/
def args_scatter_only : FwdArgs :=
  { args_plain with z_subset_ := some ⟨.int32, [4], true, true⟩, z_numrows := 4 }

/-- A call with gather and scatter indices over 2 logical rows and dropout
active. -/
def args_subset : FwdArgs :=
  { args_plain with
      x0_subset_ := some ⟨.int32, [2], true, true⟩
      z_subset_ := some ⟨.int32, [2], true, true⟩
      z_numrows := 3
      dropout_p := mkRat 1 2 }

/-- A call supplying only the row-gather index (no scatter index). -/
def args_gather_only : FwdArgs :=
  { args_plain with
      x0_subset_ := some ⟨.int32, [2], true, true⟩ }

/-- A call with hidden size 8193 (weight of 8193 elements). -/
def args_hidden_8193 : FwdArgs :=
  { args_plain with
      x0 := ⟨.fp32, [4, 8193], true, true⟩
      gamma := ⟨.fp32, [8193], true, true⟩ }

/-- A call with a negative epsilon. -/
def args_neg_eps : FwdArgs := { args_plain with epsilon := -1 }

/-- A launcher whose Query phase reports 4 draws per thread and no scratch
requirement. -/
def launcher_small : FwdLauncher := ⟨fun _ => ⟨4, 0, 0⟩⟩

/-- A launcher whose Query phase reports a positive barrier requirement. -/
def launcher_barrier : FwdLauncher := ⟨fun _ => ⟨4, 8, 1024⟩⟩

/-- The dispatch key of the all-fp32, hidden-size-256 configuration. -/
def key_fp32_256 : Nat := 682 * 2 ^ 32 + 256

/-- A registry holding only the all-fp32, hidden-size-256 launcher. -/
def reg_small : FwdRegistry := fun k => if k = key_fp32_256 then some launcher_small else none

/-- The same registry with the barrier-requesting launcher. -/
def reg_barrier : FwdRegistry := fun k => if k = key_fp32_256 then some launcher_barrier else none

/-- An empty registry. -/
def reg_empty : FwdRegistry := fun _ => none

/-- A generator state fixture. -/
def gen0 : GenState := ⟨7, 11⟩

end layer_norm

namespace layer_norm

lemma shiftLeft_lor_eq_add (a b k : Nat) (hb : b < 2 ^ k) :
    (a <<< k) ||| b = a * 2 ^ k + b := by
  rw [Nat.shiftLeft_eq, Nat.mul_comm a, ← Nat.mul_add_lt_is_or hb a]

lemma typeIdVal_le : ∀ d : Dtype, typeIdVal d ≤ 2 := by decide

lemma typeIdVal_inj : ∀ d e : Dtype, d.supported = true → e.supported = true →
    typeIdVal d = typeIdVal e → d = e := by decide

lemma type_key_lor : ∀ w i r o c : Dtype,
    typeIdVal w ||| (typeIdVal i <<< 2) ||| (typeIdVal r <<< 4) |||
      (typeIdVal o <<< 6) ||| (typeIdVal c <<< 8) = typeKeyVal w i r o c := by
  decide

lemma typeKeyVal_lt (w i r o c : Dtype) : typeKeyVal w i r o c < 1024 := by
  have hw := typeIdVal_le w
  have hi := typeIdVal_le i
  have hr := typeIdVal_le r
  have ho := typeIdVal_le o
  have hc := typeIdVal_le c
  unfold typeKeyVal
  omega

lemma get_type_id_eq_ok : ∀ d : Dtype, d.supported = true →
    get_type_id d = .ok (typeIdVal d) := by decide

lemma get_type_id_eq_error : ∀ d : Dtype, d.supported = false →
    get_type_id d = .error (.unsupportedType d) := by decide

lemma get_key_ok (w i r o c : Dtype) (h : Nat)
    (hw : w.supported = true) (hi : i.supported = true) (hr : r.supported = true)
    (ho : o.supported = true) (hc : c.supported = true) (hh : h < 2 ^ 32) :
    get_key w i r o c h = .ok (typeKeyVal w i r o c * 2 ^ 32 + h) := by
  have hlt : typeKeyVal w i r o c < 1024 := typeKeyVal_lt w i r o c
  have hsh : typeKeyVal w i r o c <<< 32 < 2 ^ 64 := by
    rw [Nat.shiftLeft_eq]
    omega
  simp only [get_key, get_type_id_eq_ok _ hw, get_type_id_eq_ok _ hi,
    get_type_id_eq_ok _ hr, get_type_id_eq_ok _ ho, get_type_id_eq_ok _ hc,
    bind, Except.bind, pure, Except.pure, type_key_lor]
  rw [Nat.mod_eq_of_lt hsh, Nat.mod_eq_of_lt (by omega : h < 2 ^ 64),
    shiftLeft_lor_eq_add _ _ _ hh]

lemma get_key_ok_supported {w i r o c : Dtype} {h k : Nat}
    (hk : get_key w i r o c h = .ok k) :
    w.supported = true ∧ i.supported = true ∧ r.supported = true ∧
      o.supported = true ∧ c.supported = true := by
  cases hw : w.supported
  · rw [get_key, get_type_id_eq_error _ hw] at hk
    simp [bind, Except.bind] at hk
  cases hi : i.supported
  · rw [get_key, get_type_id_eq_ok _ hw, get_type_id_eq_error _ hi] at hk
    simp [bind, Except.bind] at hk
  cases hr : r.supported
  · rw [get_key, get_type_id_eq_ok _ hw, get_type_id_eq_ok _ hi,
      get_type_id_eq_error _ hr] at hk
    simp [bind, Except.bind] at hk
  cases ho : o.supported
  · rw [get_key, get_type_id_eq_ok _ hw, get_type_id_eq_ok _ hi,
      get_type_id_eq_ok _ hr, get_type_id_eq_error _ ho] at hk
    simp [bind, Except.bind] at hk
  cases hc : c.supported
  · rw [get_key, get_type_id_eq_ok _ hw, get_type_id_eq_ok _ hi,
      get_type_id_eq_ok _ hr, get_type_id_eq_ok _ ho, get_type_id_eq_error _ hc] at hk
    simp [bind, Except.bind] at hk
  exact ⟨rfl, rfl, rfl, rfl, rfl⟩

lemma key_fields (tk h : Nat) (hh : h < 2 ^ 32) :
    (tk * 2 ^ 32 + h) % 2 ^ 32 = h ∧ (tk * 2 ^ 32 + h) >>> 32 = tk := by
  constructor
  · omega
  · rw [Nat.shiftRight_eq_div_pow]
    omega

end layer_norm

namespace layer_norm

lemma typeKey_fields (w i r o c : Dtype) :
    typeKeyVal w i r o c % 4 = typeIdVal w ∧
    typeKeyVal w i r o c / 4 % 4 = typeIdVal i ∧
    typeKeyVal w i r o c / 16 % 4 = typeIdVal r ∧
    typeKeyVal w i r o c / 64 % 4 = typeIdVal o ∧
    typeKeyVal w i r o c / 256 % 4 = typeIdVal c := by
  have hw := typeIdVal_le w
  have hi := typeIdVal_le i
  have hr := typeIdVal_le r
  have ho := typeIdVal_le o
  have hc := typeIdVal_le c
  unfold typeKeyVal
  omega

lemma typeKeyVal_inj {w1 i1 r1 o1 c1 w2 i2 r2 o2 c2 : Dtype}
    (hw1 : w1.supported = true) (hi1 : i1.supported = true) (hr1 : r1.supported = true)
    (ho1 : o1.supported = true) (hc1 : c1.supported = true)
    (hw2 : w2.supported = true) (hi2 : i2.supported = true) (hr2 : r2.supported = true)
    (ho2 : o2.supported = true) (hc2 : c2.supported = true)
    (h : typeKeyVal w1 i1 r1 o1 c1 = typeKeyVal w2 i2 r2 o2 c2) :
    w1 = w2 ∧ i1 = i2 ∧ r1 = r2 ∧ o1 = o2 ∧ c1 = c2 := by
  have b1 := typeIdVal_le w1
  have b2 := typeIdVal_le i1
  have b3 := typeIdVal_le r1
  have b4 := typeIdVal_le o1
  have b5 := typeIdVal_le c1
  have b6 := typeIdVal_le w2
  have b7 := typeIdVal_le i2
  have b8 := typeIdVal_le r2
  have b9 := typeIdVal_le o2
  have b10 := typeIdVal_le c2
  unfold typeKeyVal at h
  refine ⟨typeIdVal_inj _ _ hw1 hw2 (by omega), typeIdVal_inj _ _ hi1 hi2 (by omega),
    typeIdVal_inj _ _ hr1 hr2 (by omega), typeIdVal_inj _ _ ho1 ho2 (by omega),
    typeIdVal_inj _ _ hc1 hc2 (by omega)⟩

/-- C2: the key builder is a pure function, injective on its documented
domain: for supported precision 5-tuples and hidden sizes below 2^32, two
calls yield equal keys exactly when all six inputs are equal; moreover each
2-bit type code occupies its fixed field (weight at bit 32, input at 34,
residual at 36, output at 38, compute at 40) and the hidden size occupies
bits 0-31. -/
theorem get_key_injective_layout
    (w1 i1 r1 o1 c1 w2 i2 r2 o2 c2 : Dtype) (h1 h2 k1 k2 : Nat)
    (hh1 : h1 < 2 ^ 32) (hh2 : h2 < 2 ^ 32)
    (hk1 : get_key w1 i1 r1 o1 c1 h1 = .ok k1)
    (hk2 : get_key w2 i2 r2 o2 c2 h2 = .ok k2) :
    (k1 = k2 ↔ (w1 = w2 ∧ i1 = i2 ∧ r1 = r2 ∧ o1 = o2 ∧ c1 = c2 ∧ h1 = h2)) ∧
    k1 % 2 ^ 32 = h1 ∧
    (k1 >>> 32) % 4 = typeIdVal w1 ∧ (k1 >>> 34) % 4 = typeIdVal i1 ∧
    (k1 >>> 36) % 4 = typeIdVal r1 ∧ (k1 >>> 38) % 4 = typeIdVal o1 ∧
    (k1 >>> 40) % 4 = typeIdVal c1 := by
  obtain ⟨hw1, hi1, hr1, ho1, hc1⟩ := get_key_ok_supported hk1
  obtain ⟨hw2, hi2, hr2, ho2, hc2⟩ := get_key_ok_supported hk2
  rw [get_key_ok w1 i1 r1 o1 c1 h1 hw1 hi1 hr1 ho1 hc1 hh1] at hk1
  rw [get_key_ok w2 i2 r2 o2 c2 h2 hw2 hi2 hr2 ho2 hc2 hh2] at hk2
  have hk1' : k1 = typeKeyVal w1 i1 r1 o1 c1 * 2 ^ 32 + h1 := (Except.ok.inj hk1).symm
  have hk2' : k2 = typeKeyVal w2 i2 r2 o2 c2 * 2 ^ 32 + h2 := (Except.ok.inj hk2).symm
  obtain ⟨hmod, hshift⟩ := key_fields (typeKeyVal w1 i1 r1 o1 c1) h1 hh1
  obtain ⟨f1, f2, f3, f4, f5⟩ := typeKey_fields w1 i1 r1 o1 c1
  have h34 : k1 >>> 34 = (k1 >>> 32) / 4 := by
    rw [show (34 : Nat) = 32 + 2 from rfl, Nat.shiftRight_add,
      Nat.shiftRight_eq_div_pow]
  have h36 : k1 >>> 36 = (k1 >>> 32) / 16 := by
    rw [show (36 : Nat) = 32 + 4 from rfl, Nat.shiftRight_add,
      Nat.shiftRight_eq_div_pow]
  have h38 : k1 >>> 38 = (k1 >>> 32) / 64 := by
    rw [show (38 : Nat) = 32 + 6 from rfl, Nat.shiftRight_add,
      Nat.shiftRight_eq_div_pow]
  have h40 : k1 >>> 40 = (k1 >>> 32) / 256 := by
    rw [show (40 : Nat) = 32 + 8 from rfl, Nat.shiftRight_add,
      Nat.shiftRight_eq_div_pow]
  refine ⟨?_, ?_, ?_, ?_, ?_, ?_, ?_⟩
  · constructor
    · intro he
      have htk1 := typeKeyVal_lt w1 i1 r1 o1 c1
      have htk2 := typeKeyVal_lt w2 i2 r2 o2 c2
      have hsplit : typeKeyVal w1 i1 r1 o1 c1 = typeKeyVal w2 i2 r2 o2 c2 ∧ h1 = h2 := by
        rw [hk1', hk2'] at he
        omega
      obtain ⟨e1, e2, e3, e4, e5⟩ := typeKeyVal_inj hw1 hi1 hr1 ho1 hc1 hw2 hi2 hr2
        ho2 hc2 hsplit.1
      exact ⟨e1, e2, e3, e4, e5, hsplit.2⟩
    · rintro ⟨rfl, rfl, rfl, rfl, rfl, rfl⟩
      rw [hk1', hk2']
  · rw [hk1']; exact hmod
  · rw [hk1', hshift]; exact f1
  · rw [h34, hk1', hshift]; exact f2
  · rw [h36, hk1', hshift]; exact f3
  · rw [h38, hk1', hshift]; exact f4
  · rw [h40, hk1', hshift]; exact f5

/-- Witness for C2 at the all-fp32 tuples with hidden sizes 256 and 512. -/
theorem get_key_injective_layout_witness :
    ((682 * 2 ^ 32 + 256 : Nat) = 682 * 2 ^ 32 + 512 ↔
      (Dtype.fp32 = Dtype.fp32 ∧ Dtype.fp32 = Dtype.fp32 ∧ Dtype.fp32 = Dtype.fp32 ∧
        Dtype.fp32 = Dtype.fp32 ∧ Dtype.fp32 = Dtype.fp32 ∧ (256 : Nat) = 512)) ∧
    (682 * 2 ^ 32 + 256 : Nat) % 2 ^ 32 = 256 ∧
    ((682 * 2 ^ 32 + 256 : Nat) >>> 32) % 4 = typeIdVal .fp32 ∧
    ((682 * 2 ^ 32 + 256 : Nat) >>> 34) % 4 = typeIdVal .fp32 ∧
    ((682 * 2 ^ 32 + 256 : Nat) >>> 36) % 4 = typeIdVal .fp32 ∧
    ((682 * 2 ^ 32 + 256 : Nat) >>> 38) % 4 = typeIdVal .fp32 ∧
    ((682 * 2 ^ 32 + 256 : Nat) >>> 40) % 4 = typeIdVal .fp32 :=
  get_key_injective_layout .fp32 .fp32 .fp32 .fp32 .fp32 .fp32 .fp32 .fp32 .fp32 .fp32
    256 512 (682 * 2 ^ 32 + 256) (682 * 2 ^ 32 + 512)
    (by norm_num) (by norm_num) (by decide) (by decide)

end layer_norm

namespace layer_norm

lemma firstErr_eq_none : ∀ l : List (Option PrecondViolation),
    (firstErr l = none ↔ ∀ x ∈ l, x = none)
  | [] => by simp [firstErr]
  | some v :: rest => by simp [firstErr]
  | none :: rest => by simp [firstErr, firstErr_eq_none rest]

lemma validate_none_parts {a : FwdArgs} (h : validate a = none) :
    a.x0.is_cuda = true ∧ a.gamma.is_cuda = true ∧ a.x0.is_contiguous = true ∧
    a.x0.dim = 2 ∧ a.gamma.numel = fwd_cols a ∧
    check_beta a = none ∧ check_residual a = none ∧ check_rowscale a = none ∧
    check_colscale a = none ∧ check_subset a = none ∧ check_numeric a = none := by
  unfold validate at h
  split_ifs at h with h1 h2 h3 h4 h5
  rw [firstErr_eq_none] at h
  simp only [List.mem_cons, List.not_mem_nil, or_false, forall_eq_or_imp, forall_eq] at h
  refine ⟨?_, ?_, ?_, ?_, ?_, h.1, h.2.1, h.2.2.1, h.2.2.2.1, h.2.2.2.2.1, h.2.2.2.2.2⟩
  · revert h1; cases a.x0.is_cuda <;> simp
  · revert h2; cases a.gamma.is_cuda <;> simp
  · revert h3; cases a.x0.is_contiguous <;> simp
  · exact h4
  · exact h5

lemma check_numeric_none {a : FwdArgs} (h : check_numeric a = none) :
    a.gamma.numel % 8 = 0 ∧ a.gamma.numel ≤ 8192 ∧ 0 ≤ a.epsilon := by
  unfold check_numeric at h
  split_ifs at h with h1 h2
  exact ⟨h1.1, h1.2, not_lt.mp h2⟩

lemma validate_some_result {a : FwdArgs} {v : PrecondViolation}
    (reg : FwdRegistry) (gen : GenState) (h : validate a = some v) :
    dropout_add_ln_fwd a reg gen = ⟨[], .error (.precondition v)⟩ := by
  simp only [dropout_add_ln_fwd, h]

lemma fwd_dropout_fail {a : FwdArgs} (reg : FwdRegistry) (gen : GenState)
    (hv : validate a = none) (hp : ¬ a.dropout_p < 1) :
    dropout_add_ln_fwd a reg gen = ⟨fwd_alloc_trace a, .error (.precondition .dropout_p_range)⟩ := by
  simp only [dropout_add_ln_fwd, hv, hp, ite_true, not_false_eq_true]

lemma fwd_resolve_fail {a : FwdArgs} {e : FwdError} (reg : FwdRegistry) (gen : GenState)
    (hv : validate a = none) (hp : a.dropout_p < 1)
    (hl : get_fwd_launcher reg a.gamma.dtype a.x0.dtype (fwd_rtype a) a.x0.dtype .fp32
      (round_multiple a.gamma.numel (fwd_multiple a.gamma.numel)) = .error e) :
    dropout_add_ln_fwd a reg gen = ⟨fwd_alloc_trace a, .error e⟩ := by
  simp only [dropout_add_ln_fwd, hv, hl, not_not_intro hp, ite_false, not_true_eq_false]

lemma fwd_eq_of_checks {a : FwdArgs} {reg : FwdRegistry} {gen : GenState}
    {launcher : FwdLauncher}
    (hv : validate a = none) (hp : a.dropout_p < 1)
    (hl : get_fwd_launcher reg a.gamma.dtype a.x0.dtype (fwd_rtype a) a.x0.dtype .fp32
      (round_multiple a.gamma.numel (fwd_multiple a.gamma.numel)) = .ok launcher) :
    dropout_add_ln_fwd a reg gen =
      ⟨fwd_alloc_trace a ++ [Event.query (fwd_params a)] ++
        (if (0 : ℚ) < a.dropout_p
         then [Event.rng_advance gen.seed gen.offset
                 (launcher.query (fwd_params a)).elts_per_thread]
         else []) ++
        (if 0 < (launcher.query (fwd_params a)).barrier_size
         then [Event.alloc_barrier true (launcher.query (fwd_params a)).barrier_size,
               Event.alloc_workspace (launcher.query (fwd_params a)).workspace_bytes]
         else []) ++
        [Event.execute (fwd_exec_params a gen (launcher.query (fwd_params a)))],
       .ok (fwd_out a,
            if (0 : ℚ) < a.dropout_p
            then ⟨gen.seed, gen.offset + (launcher.query (fwd_params a)).elts_per_thread⟩
            else gen)⟩ := by
  simp only [dropout_add_ln_fwd, hv, hl, not_not_intro hp, ite_false, not_true_eq_false]
  by_cases hdp : (0 : ℚ) < a.dropout_p <;>
    by_cases hbs : 0 < (launcher.query (fwd_params a)).barrier_size <;>
    simp [hdp, hbs, philox_cuda_state, fwd_exec_params, fwd_rng_params]

lemma fwd_ok_cases {a : FwdArgs} {reg : FwdRegistry} {gen : GenState}
    {out : FwdOutput} {gen2 : GenState}
    (h : (dropout_add_ln_fwd a reg gen).result = .ok (out, gen2)) :
    validate a = none ∧ a.dropout_p < 1 ∧ out = fwd_out a ∧
    ∃ launcher,
      get_fwd_launcher reg a.gamma.dtype a.x0.dtype (fwd_rtype a) a.x0.dtype .fp32
        (round_multiple a.gamma.numel (fwd_multiple a.gamma.numel)) = .ok launcher ∧
      gen2 = (if (0 : ℚ) < a.dropout_p
              then ⟨gen.seed, gen.offset + (launcher.query (fwd_params a)).elts_per_thread⟩
              else gen) ∧
      (dropout_add_ln_fwd a reg gen).trace =
        fwd_alloc_trace a ++ [Event.query (fwd_params a)] ++
        (if (0 : ℚ) < a.dropout_p
         then [Event.rng_advance gen.seed gen.offset
                 (launcher.query (fwd_params a)).elts_per_thread]
         else []) ++
        (if 0 < (launcher.query (fwd_params a)).barrier_size
         then [Event.alloc_barrier true (launcher.query (fwd_params a)).barrier_size,
               Event.alloc_workspace (launcher.query (fwd_params a)).workspace_bytes]
         else []) ++
        [Event.execute (fwd_exec_params a gen (launcher.query (fwd_params a)))] := by
  rcases hv : validate a with _ | v
  · by_cases hp : a.dropout_p < 1
    · rcases hl : get_fwd_launcher reg a.gamma.dtype a.x0.dtype (fwd_rtype a) a.x0.dtype
        .fp32 (round_multiple a.gamma.numel (fwd_multiple a.gamma.numel)) with e | launcher
      · rw [fwd_resolve_fail reg gen hv hp hl] at h
        simp at h
      · rw [fwd_eq_of_checks hv hp hl] at h
        simp only [Except.ok.injEq, Prod.mk.injEq] at h
        refine ⟨rfl, hp, h.1.symm, launcher, rfl, h.2.symm, ?_⟩
        rw [fwd_eq_of_checks hv hp hl]
    · rw [fwd_dropout_fail reg gen hv hp] at h
      simp at h
  · rw [validate_some_result reg gen hv] at h
    simp at h

end layer_norm

namespace layer_norm

lemma save_x_cond_iff (a : FwdArgs) :
    save_x_cond a = true ↔
      (a.residual_.isSome = true ∨ (0 : ℚ) < a.dropout_p ∨ a.rowscale_.isSome = true ∨
        a.colscale_.isSome = true ∨ a.x0_subset_.isSome = true ∨
        a.x0.dtype ≠ fwd_rtype a) := by
  simp only [save_x_cond, Bool.or_eq_true, decide_eq_true_eq]
  tauto

lemma fwd_alloc_trace_shape {a : FwdArgs} {e : Event} (h : e ∈ fwd_alloc_trace a) :
    e = .alloc_x ∨ e = .alloc_dmask ∨ e = .alloc_z ∨ e = .alloc_mu ∨ e = .alloc_rsigma := by
  unfold fwd_alloc_trace at h
  split_ifs at h <;> simp_all <;> tauto

lemma fwd_rng_params_x (a : FwdArgs) (gen : GenState) :
    (fwd_rng_params a gen).x = save_x_cond a := by
  unfold fwd_rng_params
  split_ifs <;> rfl

lemma fwd_exec_params_x (a : FwdArgs) (gen : GenState) (q : QueryOut) :
    (fwd_exec_params a gen q).x = save_x_cond a := by
  unfold fwd_exec_params
  split_ifs <;> rw [fwd_rng_params_x]

lemma mem_trace_cases {a : FwdArgs} {reg : FwdRegistry} {gen : GenState}
    {launcher : FwdLauncher}
    (hv : validate a = none) (hp : a.dropout_p < 1)
    (hl : get_fwd_launcher reg a.gamma.dtype a.x0.dtype (fwd_rtype a) a.x0.dtype .fp32
      (round_multiple a.gamma.numel (fwd_multiple a.gamma.numel)) = .ok launcher)
    {e : Event} (he : e ∈ (dropout_add_ln_fwd a reg gen).trace) :
    e ∈ fwd_alloc_trace a ∨ e = Event.query (fwd_params a) ∨
    (e = Event.rng_advance gen.seed gen.offset
        (launcher.query (fwd_params a)).elts_per_thread ∧ (0 : ℚ) < a.dropout_p) ∨
    ((e = Event.alloc_barrier true (launcher.query (fwd_params a)).barrier_size ∨
        e = Event.alloc_workspace (launcher.query (fwd_params a)).workspace_bytes) ∧
      0 < (launcher.query (fwd_params a)).barrier_size) ∨
    e = Event.execute (fwd_exec_params a gen (launcher.query (fwd_params a))) := by
  rw [fwd_eq_of_checks hv hp hl] at he
  simp only [List.mem_append, List.mem_singleton] at he
  by_cases hdp : (0 : ℚ) < a.dropout_p <;>
    by_cases hbs : 0 < (launcher.query (fwd_params a)).barrier_size <;>
    simp only [hdp, hbs, if_true, if_false, ite_true, ite_false, List.mem_cons,
      List.mem_singleton, List.not_mem_nil] at he <;>
    tauto

/-- C1: in every successful forward call, the saved-intermediate buffer is
materialized (returned non-empty, with the residual precision and the logical
rows-by-columns extent, and flagged in the parameters handed to the kernel)
if and only if a residual is present, dropout probability is positive, a
row-scale or column-scale buffer is present, a row-gather index is present,
or the input precision differs from the derived residual precision; when none
of these holds the saved buffer is returned empty. -/
theorem saved_buffer_materialized_iff {a : FwdArgs} {reg : FwdRegistry}
    {gen : GenState} {out : FwdOutput} {gen2 : GenState}
    (h : (dropout_add_ln_fwd a reg gen).result = .ok (out, gen2)) :
    (out.x.isSome = true ↔
      (a.residual_.isSome = true ∨ (0 : ℚ) < a.dropout_p ∨ a.rowscale_.isSome = true ∨
        a.colscale_.isSome = true ∨ a.x0_subset_.isSome = true ∨
        a.x0.dtype ≠ fwd_rtype a)) ∧
    (¬ (a.residual_.isSome = true ∨ (0 : ℚ) < a.dropout_p ∨ a.rowscale_.isSome = true ∨
        a.colscale_.isSome = true ∨ a.x0_subset_.isSome = true ∨
        a.x0.dtype ≠ fwd_rtype a) → out.x = none) ∧
    ((a.residual_.isSome = true ∨ (0 : ℚ) < a.dropout_p ∨ a.rowscale_.isSome = true ∨
        a.colscale_.isSome = true ∨ a.x0_subset_.isSome = true ∨
        a.x0.dtype ≠ fwd_rtype a) →
      out.x = some ⟨fwd_rtype a, [fwd_rows a, fwd_cols a], true, true⟩) ∧
    (∀ p, Event.query p ∈ (dropout_add_ln_fwd a reg gen).trace →
      (p.x = true ↔ out.x.isSome = true)) ∧
    (∀ p, Event.execute p ∈ (dropout_add_ln_fwd a reg gen).trace →
      (p.x = true ↔ out.x.isSome = true)) := by
  obtain ⟨hv, hp, hout, launcher, hl, hgen, htr⟩ := fwd_ok_cases h
  have hx : out.x = (if save_x_cond a then
      some (⟨fwd_rtype a, [fwd_rows a, fwd_cols a], true, true⟩ : Tensor) else none) := by
    rw [hout]; rfl
  have hsome : out.x.isSome = save_x_cond a := by
    rw [hx]; by_cases hsx : save_x_cond a <;> simp [hsx]
  refine ⟨?_, ?_, ?_, ?_, ?_⟩
  · rw [hsome]; exact save_x_cond_iff a
  · intro hd
    rw [hx, if_neg]
    intro hc
    exact hd ((save_x_cond_iff a).mp hc)
  · intro hd
    rw [hx, if_pos ((save_x_cond_iff a).mpr hd)]
  · intro p hmem
    have := mem_trace_cases hv hp hl hmem
    rcases this with hc | hc | hc | hc | hc
    · rcases fwd_alloc_trace_shape hc with h' | h' | h' | h' | h' <;> simp_all
    · have hpp : p = fwd_params a := Event.query.inj hc
      rw [hpp, hsome]
      exact Iff.rfl
    · exact absurd hc.1 (by simp)
    · rcases hc.1 with h' | h' <;> simp_all
    · exact absurd hc (by simp)
  · intro p hmem
    have := mem_trace_cases hv hp hl hmem
    rcases this with hc | hc | hc | hc | hc
    · rcases fwd_alloc_trace_shape hc with h' | h' | h' | h' | h' <;> simp_all
    · exact absurd hc (by simp)
    · exact absurd hc.1 (by simp)
    · rcases hc.1 with h' | h' <;> simp_all
    · have hpp : p = fwd_exec_params a gen (launcher.query (fwd_params a)) :=
        Event.execute.inj hc
      rw [hpp, fwd_exec_params_x, hsome]

/-- Witness for C1: the dropout-active all-fp32 call materializes the saved
buffer. -/
theorem saved_buffer_materialized_iff_witness :
    ((some (⟨.fp32, [4, 256], true, true⟩ : Tensor)).isSome = true ↔
      (args_dropout.residual_.isSome = true ∨ (0 : ℚ) < args_dropout.dropout_p ∨
        args_dropout.rowscale_.isSome = true ∨ args_dropout.colscale_.isSome = true ∨
        args_dropout.x0_subset_.isSome = true ∨
        args_dropout.x0.dtype ≠ fwd_rtype args_dropout)) ∧
    (¬ (args_dropout.residual_.isSome = true ∨ (0 : ℚ) < args_dropout.dropout_p ∨
        args_dropout.rowscale_.isSome = true ∨ args_dropout.colscale_.isSome = true ∨
        args_dropout.x0_subset_.isSome = true ∨
        args_dropout.x0.dtype ≠ fwd_rtype args_dropout) →
      (some (⟨.fp32, [4, 256], true, true⟩ : Tensor) : Option Tensor) = none) ∧
    ((args_dropout.residual_.isSome = true ∨ (0 : ℚ) < args_dropout.dropout_p ∨
        args_dropout.rowscale_.isSome = true ∨ args_dropout.colscale_.isSome = true ∨
        args_dropout.x0_subset_.isSome = true ∨
        args_dropout.x0.dtype ≠ fwd_rtype args_dropout) →
      (some (⟨.fp32, [4, 256], true, true⟩ : Tensor) : Option Tensor) =
        some ⟨fwd_rtype args_dropout, [fwd_rows args_dropout, fwd_cols args_dropout],
          true, true⟩) ∧
    (∀ p, Event.query p ∈ (dropout_add_ln_fwd args_dropout reg_small gen0).trace →
      (p.x = true ↔ (some (⟨.fp32, [4, 256], true, true⟩ : Tensor)).isSome = true)) ∧
    (∀ p, Event.execute p ∈ (dropout_add_ln_fwd args_dropout reg_small gen0).trace →
      (p.x = true ↔ (some (⟨.fp32, [4, 256], true, true⟩ : Tensor)).isSome = true)) :=
  @saved_buffer_materialized_iff args_dropout reg_small gen0
    ⟨⟨.fp32, [4, 256], true, true⟩, some ⟨.fp32, [4, 256], true, true⟩,
      some ⟨.uint8, [4, 256], true, true⟩, ⟨.fp32, [4], true, true⟩,
      ⟨.fp32, [4], true, true⟩⟩
    ⟨7, 15⟩ (by decide)

end layer_norm

namespace layer_norm

lemma get_type_id_shape : ∀ d : Dtype,
    get_type_id d = .ok (typeIdVal d) ∨ get_type_id d = .error (.unsupportedType d) := by
  decide

lemma get_key_error_shape {w i r o c : Dtype} {hs : Nat} {e : FwdError}
    (h : get_key w i r o c hs = .error e) : ∃ d, e = .unsupportedType d := by
  rcases get_type_id_shape w with hw | hw <;>
    rcases get_type_id_shape i with hi | hi <;>
    rcases get_type_id_shape r with hr | hr <;>
    rcases get_type_id_shape o with ho | ho <;>
    rcases get_type_id_shape c with hc | hc <;>
    simp only [get_key, hw, hi, hr, ho, hc, bind, Except.bind, pure, Except.pure,
      Except.error.injEq, reduceCtorEq] at h <;>
    first
      | exact ⟨_, h.symm⟩
      | exact absurd h (by simp)

lemma get_fwd_launcher_ok_shape {reg : FwdRegistry} {w i r o c : Dtype} {hs : Nat}
    {l : FwdLauncher} (h : get_fwd_launcher reg w i r o c hs = .ok l) :
    ∃ k, get_key w i r o c (hs % 2 ^ 32) = .ok k ∧ reg k = some l := by
  rcases hk : get_key w i r o c (hs % 2 ^ 32) with e | k
  · rw [get_fwd_launcher, hk] at h
    simp [bind, Except.bind] at h
  · rw [get_fwd_launcher, hk] at h
    simp only [bind, Except.bind] at h
    rcases hr : reg k with _ | f
    · rw [hr] at h
      simp at h
    · rw [hr] at h
      simp only [Except.ok.injEq] at h
      exact ⟨k, rfl, by rw [hr, h]⟩

lemma get_fwd_launcher_error_shape {reg : FwdRegistry} {w i r o c : Dtype} {hs : Nat}
    {e : FwdError} (h : get_fwd_launcher reg w i r o c hs = .error e) :
    (∃ d, e = .unsupportedType d) ∨
      (e = .unsupportedConfig (hs % 2 ^ 32) w i r o c ∧
        ∃ k, get_key w i r o c (hs % 2 ^ 32) = .ok k ∧ reg k = none) := by
  rcases hk : get_key w i r o c (hs % 2 ^ 32) with e' | k
  · rw [get_fwd_launcher, hk] at h
    simp only [bind, Except.bind, Except.error.injEq] at h
    exact Or.inl (h ▸ get_key_error_shape hk)
  · rw [get_fwd_launcher, hk] at h
    simp only [bind, Except.bind] at h
    rcases hr : reg k with _ | f
    · rw [hr] at h
      simp only [Except.error.injEq] at h
      exact Or.inr ⟨h.symm, k, rfl, hr⟩
    · rw [hr] at h
      simp at h

lemma fwd_error_cases {a : FwdArgs} {reg : FwdRegistry} {gen : GenState} {e : FwdError}
    (h : (dropout_add_ln_fwd a reg gen).result = .error e) :
    (∃ v, e = .precondition v) ∨
    (validate a = none ∧ a.dropout_p < 1 ∧
      get_fwd_launcher reg a.gamma.dtype a.x0.dtype (fwd_rtype a) a.x0.dtype .fp32
        (round_multiple a.gamma.numel (fwd_multiple a.gamma.numel)) = .error e) := by
  rcases hv : validate a with _ | v
  · by_cases hp : a.dropout_p < 1
    · rcases hl : get_fwd_launcher reg a.gamma.dtype a.x0.dtype (fwd_rtype a) a.x0.dtype
        .fp32 (round_multiple a.gamma.numel (fwd_multiple a.gamma.numel)) with e' | l
      · rw [fwd_resolve_fail reg gen hv hp hl] at h
        simp only [Except.error.injEq] at h
        subst h
        exact Or.inr ⟨rfl, hp, rfl⟩
      · rw [fwd_eq_of_checks hv hp hl] at h
        simp at h
    · rw [fwd_dropout_fail reg gen hv hp] at h
      simp only [Except.error.injEq] at h
      exact Or.inl ⟨.dropout_p_range, h.symm⟩
  · rw [validate_some_result reg gen hv] at h
    simp only [Except.error.injEq] at h
    exact Or.inl ⟨v, h.symm⟩

lemma round_lt_two_pow_32 {h : Nat} (hh : h ≤ 8192) :
    round_multiple h (fwd_multiple h) < 2 ^ 32 := by
  unfold round_multiple fwd_multiple
  split_ifs <;> omega

/-- C3: before building the dispatch key the hidden size is rounded up to the
next multiple of a magnitude-dependent granularity (256 up to 1536, 512 up to
3072, 1024 beyond): the rounded value is the least multiple of the granularity
that is not below the hidden size; every dispatch, successful or not, resolves
the launcher at this rounded value (a registry miss reports exactly it), never
at the raw hidden size. -/
theorem bucket_rounding (h : Nat) :
    (h ≤ 1536 → fwd_multiple h = 256) ∧
    (1536 < h → h ≤ 3072 → fwd_multiple h = 512) ∧
    (3072 < h → fwd_multiple h = 1024) ∧
    fwd_multiple h ∣ round_multiple h (fwd_multiple h) ∧
    h ≤ round_multiple h (fwd_multiple h) ∧
    (∀ k, fwd_multiple h ∣ k → h ≤ k → round_multiple h (fwd_multiple h) ≤ k) ∧
    (∀ (a : FwdArgs) (reg : FwdRegistry) (gen : GenState) (n : Nat) (w i r o c : Dtype),
      a.gamma.numel = h →
      (dropout_add_ln_fwd a reg gen).result = .error (.unsupportedConfig n w i r o c) →
      n = round_multiple h (fwd_multiple h)) ∧
    (∀ (a : FwdArgs) (reg : FwdRegistry) (gen : GenState) (out : FwdOutput)
        (gen2 : GenState),
      a.gamma.numel = h →
      (dropout_add_ln_fwd a reg gen).result = .ok (out, gen2) →
      ∃ l, get_fwd_launcher reg a.gamma.dtype a.x0.dtype (fwd_rtype a) a.x0.dtype .fp32
        (round_multiple h (fwd_multiple h)) = .ok l) := by
  refine ⟨?_, ?_, ?_, ?_, ?_, ?_, ?_, ?_⟩
  · intro hle
    simp [fwd_multiple, hle]
  · intro hgt hle
    simp [fwd_multiple, hle]
    omega
  · intro hgt
    have h1 : ¬ h ≤ 1536 := by omega
    have h2 : ¬ h ≤ 3072 := by omega
    simp [fwd_multiple, h1, h2]
  · unfold round_multiple
    exact Dvd.intro_left _ rfl
  · unfold round_multiple fwd_multiple
    split_ifs <;> omega
  · intro k hdvd hk
    unfold round_multiple
    unfold fwd_multiple at hdvd ⊢
    split_ifs at hdvd ⊢ <;> omega
  · intro a reg gen n w i r o c hnum herr
    rcases fwd_error_cases herr with ⟨v, hv⟩ | ⟨hval, hp, hl⟩
    · simp at hv
    · rcases get_fwd_launcher_error_shape hl with ⟨d, hd⟩ | ⟨hcfg, _⟩
      · simp at hd
      · have hle : h ≤ 8192 := by
          have hnum8192 : a.gamma.numel ≤ 8192 :=
            (check_numeric_none (validate_none_parts hval).2.2.2.2.2.2.2.2.2.2).2.1
          omega
        rw [hnum] at hcfg
        injection hcfg with h1 h2 h3 h4 h5 h6
        rw [h1, Nat.mod_eq_of_lt (round_lt_two_pow_32 hle)]
  · intro a reg gen out gen2 hnum hok
    obtain ⟨_, _, _, l, hl, _⟩ := fwd_ok_cases hok
    exact ⟨l, hnum ▸ hl⟩

/-- Witness for C3 at hidden size 1000 (granularity 256, rounded to 1024),
using the successful plain fixture call for the dispatch conjuncts. -/
theorem bucket_rounding_witness :
    ((1000 : Nat) ≤ 1536 → fwd_multiple 1000 = 256) ∧
    (1536 < 1000 → (1000 : Nat) ≤ 3072 → fwd_multiple 1000 = 512) ∧
    (3072 < 1000 → fwd_multiple 1000 = 1024) ∧
    fwd_multiple 1000 ∣ round_multiple 1000 (fwd_multiple 1000) ∧
    (1000 : Nat) ≤ round_multiple 1000 (fwd_multiple 1000) ∧
    (∀ k, fwd_multiple 1000 ∣ k → 1000 ≤ k → round_multiple 1000 (fwd_multiple 1000) ≤ k) ∧
    (∀ (a : FwdArgs) (reg : FwdRegistry) (gen : GenState) (n : Nat) (w i r o c : Dtype),
      a.gamma.numel = 1000 →
      (dropout_add_ln_fwd a reg gen).result = .error (.unsupportedConfig n w i r o c) →
      n = round_multiple 1000 (fwd_multiple 1000)) ∧
    (∀ (a : FwdArgs) (reg : FwdRegistry) (gen : GenState) (out : FwdOutput)
        (gen2 : GenState),
      a.gamma.numel = 1000 →
      (dropout_add_ln_fwd a reg gen).result = .ok (out, gen2) →
      ∃ l, get_fwd_launcher reg a.gamma.dtype a.x0.dtype (fwd_rtype a) a.x0.dtype .fp32
        (round_multiple 1000 (fwd_multiple 1000)) = .ok l) :=
  bucket_rounding 1000

/-- C4: launcher resolution is an exact-match lookup: whenever the packed key
is built successfully, a registry hit returns exactly the registered
launcher, and a miss fails with the unsupported-configuration error naming
the (32-bit) hidden size and all five precisions; no other launcher is ever
returned. -/
theorem resolver_exact_match (reg : FwdRegistry) (w i r o c : Dtype) (hs k : Nat)
    (hk : get_key w i r o c (hs % 2 ^ 32) = .ok k) :
    (∀ l, reg k = some l → get_fwd_launcher reg w i r o c hs = .ok l) ∧
    (reg k = none →
      get_fwd_launcher reg w i r o c hs =
        .error (.unsupportedConfig (hs % 2 ^ 32) w i r o c)) ∧
    (∀ l, get_fwd_launcher reg w i r o c hs = .ok l → reg k = some l) := by
  refine ⟨?_, ?_, ?_⟩
  · intro l hl
    rw [get_fwd_launcher, hk]
    simp only [bind, Except.bind, hl]
  · intro hnone
    rw [get_fwd_launcher, hk]
    simp only [bind, Except.bind, hnone]
  · intro l hl
    obtain ⟨k', hk', hreg⟩ := get_fwd_launcher_ok_shape hl
    rw [hk] at hk'
    injection hk' with hkk
    rw [hkk]
    exact hreg

/-- Witness for C4 at the all-fp32, hidden-size-256 key and the one-entry
fixture registry. -/
theorem resolver_exact_match_witness :
    (∀ l, reg_small key_fp32_256 = some l →
      get_fwd_launcher reg_small .fp32 .fp32 .fp32 .fp32 .fp32 256 = .ok l) ∧
    (reg_small key_fp32_256 = none →
      get_fwd_launcher reg_small .fp32 .fp32 .fp32 .fp32 .fp32 256 =
        .error (.unsupportedConfig (256 % 2 ^ 32) .fp32 .fp32 .fp32 .fp32 .fp32)) ∧
    (∀ l, get_fwd_launcher reg_small .fp32 .fp32 .fp32 .fp32 .fp32 256 = .ok l →
      reg_small key_fp32_256 = some l) :=
  resolver_exact_match reg_small .fp32 .fp32 .fp32 .fp32 .fp32 256 key_fp32_256
    (by decide)

end layer_norm

namespace layer_norm

/-- C5 counterexample: a zero hidden size violates the claimed positivity
precondition, yet it passes the numeric validation (0 is a multiple of 8 and
at most 8192) and the call fails only later, in dispatch, with an
unsupported-configuration error rather than a precondition violation. -/
theorem zero_hidden_passes_numeric_check :
    args_zero_hidden.gamma.numel = 0 ∧
    validate args_zero_hidden = none ∧
    (dropout_add_ln_fwd args_zero_hidden reg_empty gen0).result =
      .error (.unsupportedConfig 0 .fp32 .fp32 .fp32 .fp32 .fp32) := by
  refine ⟨by decide, by decide, by decide⟩

/-- C5 (amended): the numeric-range preconditions as implemented: every
successful call has a hidden size that is a multiple of 8 (positivity is not
checked) and at most 8192, a non-negative epsilon and a dropout probability
below 1; a hidden size that is not a multiple of 8 or exceeds 8192 is
rejected by validation, as is a negative epsilon; a validation failure is
fatal with the corresponding precondition error, and a call that passes
validation with dropout probability at least 1 (in particular exactly 1.0)
fails fatally with the dropout-range precondition error. -/
theorem numeric_preconditions_enforced :
    (∀ (a : FwdArgs) (reg : FwdRegistry) (gen : GenState) (out : FwdOutput)
        (gen2 : GenState),
      (dropout_add_ln_fwd a reg gen).result = .ok (out, gen2) →
      a.gamma.numel % 8 = 0 ∧ a.gamma.numel ≤ 8192 ∧ 0 ≤ a.epsilon ∧ a.dropout_p < 1) ∧
    (∀ a : FwdArgs, ¬ (a.gamma.numel % 8 = 0 ∧ a.gamma.numel ≤ 8192) →
      validate a ≠ none) ∧
    (∀ a : FwdArgs, a.epsilon < 0 → validate a ≠ none) ∧
    (∀ (a : FwdArgs) (reg : FwdRegistry) (gen : GenState) (v : PrecondViolation),
      validate a = some v →
      (dropout_add_ln_fwd a reg gen).result = .error (.precondition v)) ∧
    (∀ (a : FwdArgs) (reg : FwdRegistry) (gen : GenState),
      validate a = none → 1 ≤ a.dropout_p →
      (dropout_add_ln_fwd a reg gen).result = .error (.precondition .dropout_p_range)) := by
  refine ⟨?_, ?_, ?_, ?_, ?_⟩
  · intro a reg gen out gen2 hok
    obtain ⟨hv, hp, _⟩ := fwd_ok_cases hok
    have hn := check_numeric_none (validate_none_parts hv).2.2.2.2.2.2.2.2.2.2
    exact ⟨hn.1, hn.2.1, hn.2.2, hp⟩
  · intro a hno hvn
    have hn := check_numeric_none (validate_none_parts hvn).2.2.2.2.2.2.2.2.2.2
    exact hno ⟨hn.1, hn.2.1⟩
  · intro a heps hvn
    have hn := check_numeric_none (validate_none_parts hvn).2.2.2.2.2.2.2.2.2.2
    exact absurd hn.2.2 (not_le.mpr heps)
  · intro a reg gen v hsome
    rw [validate_some_result reg gen hsome]
  · intro a reg gen hv h1
    rw [fwd_dropout_fail reg gen hv (not_lt.mpr h1)]

/-- Witness for C5: dropout probability exactly 1 fails with the dropout
precondition error after passing validation; hidden size 8193 and negative
epsilon are rejected by validation. -/
theorem numeric_preconditions_enforced_witness :
    (dropout_add_ln_fwd args_dropout_one reg_small gen0).result =
      .error (.precondition .dropout_p_range) ∧
    validate args_hidden_8193 ≠ none ∧
    validate args_neg_eps ≠ none :=
  ⟨numeric_preconditions_enforced.2.2.2.2 args_dropout_one reg_small gen0
      (by decide) (by decide),
   numeric_preconditions_enforced.2.1 args_hidden_8193 (by decide),
   numeric_preconditions_enforced.2.2.1 args_neg_eps (by decide)⟩

lemma check_subset_none {a : FwdArgs} {s : Tensor} (h : check_subset a = none)
    (hs : a.x0_subset_ = some s) :
    s.is_cuda = true ∧ s.is_contiguous = true ∧ s.sizes = [fwd_rows a] ∧
    s.dtype = .int32 ∧
    ∃ zs, a.z_subset_ = some zs ∧ zs.is_cuda = true ∧ zs.is_contiguous = true ∧
      zs.sizes = [fwd_rows a] ∧ zs.dtype = .int32 := by
  rcases hz : a.z_subset_ with _ | zs
  · simp only [check_subset, hs, hz] at h
    split_ifs at h <;> simp_all
  · simp only [check_subset, hs, hz] at h
    split_ifs at h with h1 h2 h3 h4 h5 h6 h7 h8 <;> simp_all

/-- C6 counterexample: a call supplying only the row-scatter index buffer and
no gather index is not rejected; it completes successfully. -/
theorem scatter_only_not_rejected :
    args_scatter_only.z_subset_.isSome = true ∧
    args_scatter_only.x0_subset_ = none ∧
    (dropout_add_ln_fwd args_scatter_only reg_small gen0).result =
      .ok (⟨⟨.fp32, [4, 256], true, true⟩, none, none, ⟨.fp32, [4], true, true⟩,
        ⟨.fp32, [4], true, true⟩⟩, gen0) := by
  refine ⟨by decide, by decide, by decide⟩

/-- C6 (amended): if the row-gather index is present then the row-scatter
index must also be present, and both are validated as device-resident,
contiguous, sized to the row count, 32-bit integer buffers; a call supplying
the gather index without the scatter index fails validation fatally.
Supplying only the scatter index is not rejected. -/
theorem gather_scatter_validation :
    (∀ (a : FwdArgs) (reg : FwdRegistry) (gen : GenState) (out : FwdOutput)
        (gen2 : GenState) (s : Tensor),
      (dropout_add_ln_fwd a reg gen).result = .ok (out, gen2) →
      a.x0_subset_ = some s →
      s.is_cuda = true ∧ s.is_contiguous = true ∧ s.sizes = [fwd_rows a] ∧
      s.dtype = .int32 ∧
      ∃ zs, a.z_subset_ = some zs ∧ zs.is_cuda = true ∧ zs.is_contiguous = true ∧
        zs.sizes = [fwd_rows a] ∧ zs.dtype = .int32) ∧
    (∀ a : FwdArgs, a.x0_subset_.isSome = true → a.z_subset_ = none →
      validate a ≠ none) ∧
    (∀ (a : FwdArgs) (reg : FwdRegistry) (gen : GenState),
      validate a ≠ none → ∀ (out : FwdOutput) (gen2 : GenState),
      (dropout_add_ln_fwd a reg gen).result ≠ .ok (out, gen2)) := by
  refine ⟨?_, ?_, ?_⟩
  · intro a reg gen out gen2 s hok hs
    obtain ⟨hv, _, _⟩ := fwd_ok_cases hok
    exact check_subset_none (validate_none_parts hv).2.2.2.2.2.2.2.2.2.1 hs
  · intro a hx hz hvn
    rcases hxs : a.x0_subset_ with _ | s
    · rw [hxs] at hx
      simp at hx
    · have hcs := (validate_none_parts hvn).2.2.2.2.2.2.2.2.2.1
      simp only [check_subset, hxs, hz] at hcs
      split_ifs at hcs <;> simp_all
  · intro a reg gen hne out gen2 hok
    exact hne (fwd_ok_cases hok).1

/-- Witness for C6: the gather-and-scatter fixture call succeeds and its
index buffers satisfy the validated properties; the gather-only fixture is
rejected by validation. -/
theorem gather_scatter_validation_witness :
    ((⟨.int32, [2], true, true⟩ : Tensor).is_cuda = true ∧
     (⟨.int32, [2], true, true⟩ : Tensor).is_contiguous = true ∧
     (⟨.int32, [2], true, true⟩ : Tensor).sizes = [fwd_rows args_subset] ∧
     (⟨.int32, [2], true, true⟩ : Tensor).dtype = .int32 ∧
     ∃ zs, args_subset.z_subset_ = some zs ∧ zs.is_cuda = true ∧
       zs.is_contiguous = true ∧ zs.sizes = [fwd_rows args_subset] ∧
       zs.dtype = .int32) ∧
    validate args_gather_only ≠ none :=
  ⟨gather_scatter_validation.1 args_subset reg_small gen0
      ⟨⟨.fp32, [3, 256], true, true⟩, some ⟨.fp32, [2, 256], true, true⟩,
        some ⟨.uint8, [4, 256], true, true⟩, ⟨.fp32, [2], true, true⟩,
        ⟨.fp32, [2], true, true⟩⟩
      ⟨7, 15⟩ ⟨.int32, [2], true, true⟩ (by decide) (by decide),
   gather_scatter_validation.2.1 args_gather_only (by decide) (by decide)⟩

end layer_norm

namespace layer_norm

lemma fwd_precondition_trace {a : FwdArgs} {reg : FwdRegistry} {gen : GenState}
    {v : PrecondViolation}
    (h : (dropout_add_ln_fwd a reg gen).result = .error (.precondition v)) :
    (validate a = some v ∧ dropout_add_ln_fwd a reg gen = ⟨[], .error (.precondition v)⟩) ∨
    (validate a = none ∧ ¬ a.dropout_p < 1 ∧ v = .dropout_p_range ∧
      dropout_add_ln_fwd a reg gen =
        ⟨fwd_alloc_trace a, .error (.precondition v)⟩) := by
  rcases hv : validate a with _ | v'
  · by_cases hp : a.dropout_p < 1
    · rcases hl : get_fwd_launcher reg a.gamma.dtype a.x0.dtype (fwd_rtype a) a.x0.dtype
        .fp32 (round_multiple a.gamma.numel (fwd_multiple a.gamma.numel)) with e | l
      · rw [fwd_resolve_fail reg gen hv hp hl] at h
        simp only [Except.error.injEq] at h
        subst h
        rcases get_fwd_launcher_error_shape hl with ⟨d, hd⟩ | ⟨hcfg, _⟩
        · simp at hd
        · simp at hcfg
      · rw [fwd_eq_of_checks hv hp hl] at h
        simp at h
    · rw [fwd_dropout_fail reg gen hv hp] at h
      simp only [Except.error.injEq, FwdError.precondition.injEq] at h
      subst h
      exact Or.inr ⟨rfl, hp, rfl, fwd_dropout_fail reg gen hv hp⟩
  · rw [validate_some_result reg gen hv] at h
    simp only [Except.error.injEq, FwdError.precondition.injEq] at h
    subst h
    exact Or.inl ⟨rfl, validate_some_result reg gen hv⟩

/-- C9 counterexample: a call with dropout probability exactly 1 violates the
dropout precondition, yet the saved-intermediate, mask, output and statistics
buffers are all allocated before the call fails. -/
theorem dropout_bound_fails_after_allocation :
    (dropout_add_ln_fwd args_dropout_one reg_small gen0).result =
      .error (.precondition .dropout_p_range) ∧
    Event.alloc_x ∈ (dropout_add_ln_fwd args_dropout_one reg_small gen0).trace ∧
    Event.alloc_dmask ∈ (dropout_add_ln_fwd args_dropout_one reg_small gen0).trace ∧
    Event.alloc_z ∈ (dropout_add_ln_fwd args_dropout_one reg_small gen0).trace ∧
    Event.alloc_mu ∈ (dropout_add_ln_fwd args_dropout_one reg_small gen0).trace ∧
    Event.alloc_rsigma ∈ (dropout_add_ln_fwd args_dropout_one reg_small gen0).trace := by
  refine ⟨by decide, by decide, by decide, by decide, by decide, by decide⟩

/-- C9 (amended): every precondition failure other than the dropout
probability bound occurs before any buffer allocation (the failing call has
an empty event trace); the dropout-bound failure occurs after the output,
saved, mask and statistics allocations but before any scratch or barrier
allocation; and no failing call ever reaches the RNG advance, the Query
phase or the Execute phase. -/
theorem precondition_failure_allocation_boundary
    (a : FwdArgs) (reg : FwdRegistry) (gen : GenState) (v : PrecondViolation)
    (h : (dropout_add_ln_fwd a reg gen).result = .error (.precondition v)) :
    (v ≠ .dropout_p_range → (dropout_add_ln_fwd a reg gen).trace = []) ∧
    (validate a = none → v = .dropout_p_range ∧
      (dropout_add_ln_fwd a reg gen).trace = fwd_alloc_trace a) ∧
    (∀ p, Event.query p ∉ (dropout_add_ln_fwd a reg gen).trace) ∧
    (∀ p, Event.execute p ∉ (dropout_add_ln_fwd a reg gen).trace) ∧
    (∀ s o d, Event.rng_advance s o d ∉ (dropout_add_ln_fwd a reg gen).trace) ∧
    (∀ b n, Event.alloc_barrier b n ∉ (dropout_add_ln_fwd a reg gen).trace) ∧
    (∀ n, Event.alloc_workspace n ∉ (dropout_add_ln_fwd a reg gen).trace) := by
  rcases fwd_precondition_trace h with ⟨hv, heq⟩ | ⟨hv, hp, hvr, heq⟩
  · rw [heq]
    refine ⟨fun _ => rfl, fun hn => absurd hv (by simp [hn]), ?_, ?_, ?_, ?_, ?_⟩ <;>
      simp
  · rw [heq]
    refine ⟨fun hne => absurd hvr hne, fun _ => ⟨hvr, rfl⟩, ?_, ?_, ?_, ?_, ?_⟩
    · intro p hmem
      rcases fwd_alloc_trace_shape hmem with h' | h' | h' | h' | h' <;> simp at h'
    · intro p hmem
      rcases fwd_alloc_trace_shape hmem with h' | h' | h' | h' | h' <;> simp at h'
    · intro s o d hmem
      rcases fwd_alloc_trace_shape hmem with h' | h' | h' | h' | h' <;> simp at h'
    · intro b n hmem
      rcases fwd_alloc_trace_shape hmem with h' | h' | h' | h' | h' <;> simp at h'
    · intro n hmem
      rcases fwd_alloc_trace_shape hmem with h' | h' | h' | h' | h' <;> simp at h'

/-- Witness for C9 at the negative-epsilon fixture: the failure is a
non-dropout precondition violation and the trace is empty. -/
theorem precondition_failure_allocation_boundary_witness :
    (PrecondViolation.epsilon_negative ≠ PrecondViolation.dropout_p_range →
      (dropout_add_ln_fwd args_neg_eps reg_small gen0).trace = []) ∧
    (validate args_neg_eps = none → PrecondViolation.epsilon_negative =
        PrecondViolation.dropout_p_range ∧
      (dropout_add_ln_fwd args_neg_eps reg_small gen0).trace =
        fwd_alloc_trace args_neg_eps) ∧
    (∀ p, Event.query p ∉ (dropout_add_ln_fwd args_neg_eps reg_small gen0).trace) ∧
    (∀ p, Event.execute p ∉ (dropout_add_ln_fwd args_neg_eps reg_small gen0).trace) ∧
    (∀ s o d, Event.rng_advance s o d ∉
      (dropout_add_ln_fwd args_neg_eps reg_small gen0).trace) ∧
    (∀ b n, Event.alloc_barrier b n ∉
      (dropout_add_ln_fwd args_neg_eps reg_small gen0).trace) ∧
    (∀ n, Event.alloc_workspace n ∉
      (dropout_add_ln_fwd args_neg_eps reg_small gen0).trace) :=
  precondition_failure_allocation_boundary args_neg_eps reg_small gen0
    .epsilon_negative (by decide)

end layer_norm

namespace layer_norm

lemma fwd_alloc_trace_countP_zero (a : FwdArgs) (pred : Event → Bool)
    (hx : pred .alloc_x = false) (hd : pred .alloc_dmask = false)
    (hz : pred .alloc_z = false) (hm : pred .alloc_mu = false)
    (hr : pred .alloc_rsigma = false) :
    List.countP pred (fwd_alloc_trace a) = 0 := by
  rw [List.countP_eq_zero]
  intro e he
  rcases fwd_alloc_trace_shape he with rfl | rfl | rfl | rfl | rfl <;>
    simp [hx, hd, hz, hm, hr]

lemma fwd_rng_params_scratch (a : FwdArgs) (gen : GenState) :
    (fwd_rng_params a gen).workspace = false ∧ (fwd_rng_params a gen).barrier = false := by
  unfold fwd_rng_params
  split_ifs <;> exact ⟨rfl, rfl⟩

lemma fwd_exec_params_scratch_pos (a : FwdArgs) (gen : GenState) (q : QueryOut)
    (h : 0 < q.barrier_size) :
    (fwd_exec_params a gen q).workspace = true ∧ (fwd_exec_params a gen q).barrier = true := by
  unfold fwd_exec_params
  rw [if_pos h]
  exact ⟨rfl, rfl⟩

lemma fwd_exec_params_scratch_zero (a : FwdArgs) (gen : GenState) (q : QueryOut)
    (h : q.barrier_size = 0) :
    (fwd_exec_params a gen q).workspace = false ∧
      (fwd_exec_params a gen q).barrier = false := by
  unfold fwd_exec_params
  rw [if_neg (by omega)]
  exact fwd_rng_params_scratch a gen

/-- C7: in every successful call the resolved launcher is invoked first in
the Query phase and exactly once in the Execute phase, with the Query event
preceding the Execute event and the Execute event terminal; the barrier and
workspace buffers are allocated strictly between the two phases exactly when
the Query phase reports a positive barrier requirement, the barrier being
zero-initialized; otherwise both phases run with null scratch references. -/
theorem two_phase_launch {a : FwdArgs} {reg : FwdRegistry} {gen : GenState}
    {out : FwdOutput} {gen2 : GenState}
    (h : (dropout_add_ln_fwd a reg gen).result = .ok (out, gen2)) :
    ∃ launcher mid pex,
      get_fwd_launcher reg a.gamma.dtype a.x0.dtype (fwd_rtype a) a.x0.dtype .fp32
        (round_multiple a.gamma.numel (fwd_multiple a.gamma.numel)) = .ok launcher ∧
      (dropout_add_ln_fwd a reg gen).trace =
        fwd_alloc_trace a ++ [Event.query (fwd_params a)] ++ mid ++
          [Event.execute pex] ∧
      List.countP Event.isQuery (dropout_add_ln_fwd a reg gen).trace = 1 ∧
      List.countP Event.isExecute (dropout_add_ln_fwd a reg gen).trace = 1 ∧
      (∀ e ∈ fwd_alloc_trace a, Event.isScratchAlloc e = false) ∧
      (∀ e ∈ mid, Event.isQuery e = false ∧ Event.isExecute e = false) ∧
      (0 < (launcher.query (fwd_params a)).barrier_size →
        Event.alloc_barrier true (launcher.query (fwd_params a)).barrier_size ∈ mid ∧
        Event.alloc_workspace (launcher.query (fwd_params a)).workspace_bytes ∈ mid ∧
        pex.barrier = true ∧ pex.workspace = true) ∧
      ((launcher.query (fwd_params a)).barrier_size = 0 →
        (∀ e ∈ mid, Event.isScratchAlloc e = false) ∧
        pex.barrier = false ∧ pex.workspace = false ∧
        (fwd_params a).barrier = false ∧ (fwd_params a).workspace = false) := by
  obtain ⟨hv, hp, hout, launcher, hl, hgen, htr⟩ := fwd_ok_cases h
  refine ⟨launcher,
    (if (0 : ℚ) < a.dropout_p
     then [Event.rng_advance gen.seed gen.offset
             (launcher.query (fwd_params a)).elts_per_thread]
     else []) ++
    (if 0 < (launcher.query (fwd_params a)).barrier_size
     then [Event.alloc_barrier true (launcher.query (fwd_params a)).barrier_size,
           Event.alloc_workspace (launcher.query (fwd_params a)).workspace_bytes]
     else []),
    fwd_exec_params a gen (launcher.query (fwd_params a)), hl, ?_, ?_, ?_, ?_, ?_, ?_, ?_⟩
  · rw [htr]
    simp [List.append_assoc]
  · rw [htr]
    simp only [List.countP_append]
    rw [fwd_alloc_trace_countP_zero a Event.isQuery rfl rfl rfl rfl rfl]
    by_cases hdp : (0 : ℚ) < a.dropout_p <;>
      by_cases hbs : 0 < (launcher.query (fwd_params a)).barrier_size <;>
      simp [hdp, hbs, List.countP_cons, Event.isQuery]
  · rw [htr]
    simp only [List.countP_append]
    rw [fwd_alloc_trace_countP_zero a Event.isExecute rfl rfl rfl rfl rfl]
    by_cases hdp : (0 : ℚ) < a.dropout_p <;>
      by_cases hbs : 0 < (launcher.query (fwd_params a)).barrier_size <;>
      simp [hdp, hbs, List.countP_cons, Event.isExecute]
  · intro e he
    rcases fwd_alloc_trace_shape he with rfl | rfl | rfl | rfl | rfl <;> rfl
  · intro e he
    simp only [List.mem_append] at he
    rcases he with he | he
    · by_cases hdp : (0 : ℚ) < a.dropout_p <;> simp [hdp] at he
      subst he
      exact ⟨rfl, rfl⟩
    · by_cases hbs : 0 < (launcher.query (fwd_params a)).barrier_size <;>
        simp [hbs] at he
      rcases he with rfl | rfl <;> exact ⟨rfl, rfl⟩
  · intro hbs
    obtain ⟨hw, hb⟩ := fwd_exec_params_scratch_pos a gen (launcher.query (fwd_params a)) hbs
    refine ⟨?_, ?_, hb, hw⟩ <;> simp [hbs, List.mem_append]
  · intro hbs0
    have hbs : ¬ 0 < (launcher.query (fwd_params a)).barrier_size := by omega
    obtain ⟨hw, hb⟩ := fwd_exec_params_scratch_zero a gen (launcher.query (fwd_params a)) hbs0
    refine ⟨?_, hb, hw, rfl, rfl⟩
    intro e he
    simp only [List.mem_append] at he
    rcases he with he | he
    · by_cases hdp : (0 : ℚ) < a.dropout_p <;> simp [hdp] at he
      subst he
      rfl
    · simp [hbs] at he

/-- Witness for C7: the dropout-active all-fp32 call against the
barrier-requesting launcher. -/
theorem two_phase_launch_witness :
    ∃ launcher mid pex,
      get_fwd_launcher reg_barrier args_dropout.gamma.dtype args_dropout.x0.dtype
        (fwd_rtype args_dropout) args_dropout.x0.dtype .fp32
        (round_multiple args_dropout.gamma.numel
          (fwd_multiple args_dropout.gamma.numel)) = .ok launcher ∧
      (dropout_add_ln_fwd args_dropout reg_barrier gen0).trace =
        fwd_alloc_trace args_dropout ++ [Event.query (fwd_params args_dropout)] ++
          mid ++ [Event.execute pex] ∧
      List.countP Event.isQuery
        (dropout_add_ln_fwd args_dropout reg_barrier gen0).trace = 1 ∧
      List.countP Event.isExecute
        (dropout_add_ln_fwd args_dropout reg_barrier gen0).trace = 1 ∧
      (∀ e ∈ fwd_alloc_trace args_dropout, Event.isScratchAlloc e = false) ∧
      (∀ e ∈ mid, Event.isQuery e = false ∧ Event.isExecute e = false) ∧
      (0 < (launcher.query (fwd_params args_dropout)).barrier_size →
        Event.alloc_barrier true
          (launcher.query (fwd_params args_dropout)).barrier_size ∈ mid ∧
        Event.alloc_workspace
          (launcher.query (fwd_params args_dropout)).workspace_bytes ∈ mid ∧
        pex.barrier = true ∧ pex.workspace = true) ∧
      ((launcher.query (fwd_params args_dropout)).barrier_size = 0 →
        (∀ e ∈ mid, Event.isScratchAlloc e = false) ∧
        pex.barrier = false ∧ pex.workspace = false ∧
        (fwd_params args_dropout).barrier = false ∧
        (fwd_params args_dropout).workspace = false) :=
  @two_phase_launch args_dropout reg_barrier gen0
    ⟨⟨.fp32, [4, 256], true, true⟩, some ⟨.fp32, [4, 256], true, true⟩,
      some ⟨.uint8, [4, 256], true, true⟩, ⟨.fp32, [4], true, true⟩,
      ⟨.fp32, [4], true, true⟩⟩
    ⟨7, 15⟩ (by decide)

end layer_norm

namespace layer_norm

lemma rng_event_fields {a : FwdArgs} {reg : FwdRegistry} {gen : GenState}
    {out : FwdOutput} {gen2 : GenState} {s o d : Nat}
    (h : (dropout_add_ln_fwd a reg gen).result = .ok (out, gen2))
    (he : Event.rng_advance s o d ∈ (dropout_add_ln_fwd a reg gen).trace) :
    s = gen.seed ∧ o = gen.offset ∧ gen2 = ⟨gen.seed, gen.offset + d⟩ ∧
    (0 : ℚ) < a.dropout_p ∧
    ∃ launcher,
      get_fwd_launcher reg a.gamma.dtype a.x0.dtype (fwd_rtype a) a.x0.dtype .fp32
        (round_multiple a.gamma.numel (fwd_multiple a.gamma.numel)) = .ok launcher ∧
      d = (launcher.query (fwd_params a)).elts_per_thread := by
  obtain ⟨hv, hp, hout, launcher, hl, hgen, htr⟩ := fwd_ok_cases h
  rw [htr] at he
  simp only [List.mem_append, List.mem_singleton] at he
  rcases he with (((he | he) | he) | he) | he
  · rcases fwd_alloc_trace_shape he with h' | h' | h' | h' | h' <;> simp at h'
  · simp at he
  · by_cases hdp : (0 : ℚ) < a.dropout_p
    · rw [if_pos hdp] at he
      simp only [List.mem_singleton] at he
      injection he with h1 h2 h3
      subst h1
      subst h2
      subst h3
      rw [hgen, if_pos hdp]
      exact ⟨rfl, rfl, rfl, hdp, launcher, hl, rfl⟩
    · rw [if_neg hdp] at he
      simp at he
  · by_cases hbs : 0 < (launcher.query (fwd_params a)).barrier_size <;>
      simp [hbs] at he
  · simp at he

/-- C8: the RNG counter of the generator is read and advanced exactly when
dropout is active (dropout probability positive, equivalently the
keep-probability passed to the kernel below 1), by exactly the per-thread
draw count reported by the Query phase, with the issued seed/offset pair
being the generator state before the advance; consequently the offsets
issued to two back-to-back calls with dropout active never overlap. -/
theorem rng_counter_advance :
    (∀ (a : FwdArgs) (reg : FwdRegistry) (gen : GenState) (out : FwdOutput)
        (gen2 : GenState),
      (dropout_add_ln_fwd a reg gen).result = .ok (out, gen2) →
      ((0 : ℚ) < a.dropout_p ↔ (fwd_params a).dropout_keep_p < 1) ∧
      ((0 : ℚ) < a.dropout_p →
        ∃ launcher,
          get_fwd_launcher reg a.gamma.dtype a.x0.dtype (fwd_rtype a) a.x0.dtype .fp32
            (round_multiple a.gamma.numel (fwd_multiple a.gamma.numel)) =
              .ok launcher ∧
          gen2 = ⟨gen.seed,
            gen.offset + (launcher.query (fwd_params a)).elts_per_thread⟩ ∧
          Event.rng_advance gen.seed gen.offset
              ((launcher.query (fwd_params a)).elts_per_thread) ∈
            (dropout_add_ln_fwd a reg gen).trace) ∧
      (¬ (0 : ℚ) < a.dropout_p → gen2 = gen ∧
        ∀ s o d, Event.rng_advance s o d ∉ (dropout_add_ln_fwd a reg gen).trace)) ∧
    (∀ (a1 a2 : FwdArgs) (reg1 reg2 : FwdRegistry) (gen0 : GenState)
        (out1 : FwdOutput) (gen1 : GenState) (out2 : FwdOutput) (gen2 : GenState)
        (s1 o1 d1 s2 o2 d2 : Nat),
      (dropout_add_ln_fwd a1 reg1 gen0).result = .ok (out1, gen1) →
      (dropout_add_ln_fwd a2 reg2 gen1).result = .ok (out2, gen2) →
      Event.rng_advance s1 o1 d1 ∈ (dropout_add_ln_fwd a1 reg1 gen0).trace →
      Event.rng_advance s2 o2 d2 ∈ (dropout_add_ln_fwd a2 reg2 gen1).trace →
      o1 + d1 ≤ o2) := by
  constructor
  · intro a reg gen out gen2 h
    obtain ⟨hv, hp, hout, launcher, hl, hgen, htr⟩ := fwd_ok_cases h
    refine ⟨?_, ?_, ?_⟩
    · show (0 : ℚ) < a.dropout_p ↔ 1 - a.dropout_p < 1
      constructor <;> intro hh <;> linarith
    · intro hdp
      refine ⟨launcher, hl, by rw [hgen, if_pos hdp], ?_⟩
      rw [htr]
      simp [List.mem_append, hdp]
    · intro hnd
      refine ⟨by rw [hgen, if_neg hnd], ?_⟩
      intro s o d hm
      rw [htr] at hm
      simp only [List.mem_append, List.mem_singleton] at hm
      rcases hm with (((hm | hm) | hm) | hm) | hm
      · rcases fwd_alloc_trace_shape hm with h' | h' | h' | h' | h' <;> simp at h'
      · simp at hm
      · rw [if_neg hnd] at hm
        simp at hm
      · by_cases hbs : 0 < (launcher.query (fwd_params a)).barrier_size <;>
          simp [hbs] at hm
      · simp at hm
  · intro a1 a2 reg1 reg2 gen0 out1 gen1 out2 gen2 s1 o1 d1 s2 o2 d2 h1 h2 he1 he2
    obtain ⟨hs1, ho1, hg1, _, _⟩ := rng_event_fields h1 he1
    obtain ⟨hs2, ho2, hg2, _, _⟩ := rng_event_fields h2 he2
    have ho2' : o2 = gen0.offset + d1 := by rw [ho2, hg1]
    omega

/-- Witness for C8: two back-to-back dropout-active calls from the fixture
generator state. -/
theorem rng_counter_advance_witness :
    (((0 : ℚ) < args_dropout.dropout_p ↔ (fwd_params args_dropout).dropout_keep_p < 1) ∧
     ((0 : ℚ) < args_dropout.dropout_p →
        ∃ launcher,
          get_fwd_launcher reg_small args_dropout.gamma.dtype args_dropout.x0.dtype
            (fwd_rtype args_dropout) args_dropout.x0.dtype .fp32
            (round_multiple args_dropout.gamma.numel
              (fwd_multiple args_dropout.gamma.numel)) = .ok launcher ∧
          (⟨7, 15⟩ : GenState) = ⟨gen0.seed,
            gen0.offset + (launcher.query (fwd_params args_dropout)).elts_per_thread⟩ ∧
          Event.rng_advance gen0.seed gen0.offset
              ((launcher.query (fwd_params args_dropout)).elts_per_thread) ∈
            (dropout_add_ln_fwd args_dropout reg_small gen0).trace) ∧
     (¬ (0 : ℚ) < args_dropout.dropout_p → (⟨7, 15⟩ : GenState) = gen0 ∧
        ∀ s o d, Event.rng_advance s o d ∉
          (dropout_add_ln_fwd args_dropout reg_small gen0).trace)) ∧
    ((11 : Nat) + 4 ≤ 15) :=
  ⟨rng_counter_advance.1 args_dropout reg_small gen0
      ⟨⟨.fp32, [4, 256], true, true⟩, some ⟨.fp32, [4, 256], true, true⟩,
        some ⟨.uint8, [4, 256], true, true⟩, ⟨.fp32, [4], true, true⟩,
        ⟨.fp32, [4], true, true⟩⟩ ⟨7, 15⟩ (by decide),
   rng_counter_advance.2 args_dropout args_dropout reg_small reg_small gen0
      ⟨⟨.fp32, [4, 256], true, true⟩, some ⟨.fp32, [4, 256], true, true⟩,
        some ⟨.uint8, [4, 256], true, true⟩, ⟨.fp32, [4], true, true⟩,
        ⟨.fp32, [4], true, true⟩⟩ ⟨7, 15⟩
      ⟨⟨.fp32, [4, 256], true, true⟩, some ⟨.fp32, [4, 256], true, true⟩,
        some ⟨.uint8, [4, 256], true, true⟩, ⟨.fp32, [4], true, true⟩,
        ⟨.fp32, [4], true, true⟩⟩ ⟨7, 19⟩ 7 11 4 7 15 4
      (by decide) (by decide) (by decide) (by decide)⟩

end layer_norm

namespace layer_norm

lemma x0_sizes_decomp {a : FwdArgs} (h2 : a.x0.dim = 2) :
    a.x0.sizes = [a.x0.size 0, a.x0.size 1] := by
  obtain ⟨u, v, huv⟩ := List.length_eq_two.mp h2
  rw [Tensor.size, Tensor.size, huv]
  rfl

/-- C10: when the row-gather index is present and dropout is active, the
returned dropout mask spans the full physical input (first input dimension
times columns) while the saved intermediate, per-row mean and per-row inverse
standard deviation are sized to the gather-index row count, and the
normalized output is sized to the scatter row count; the mask is thus the
only output whose row extent follows the physical input. -/
theorem gather_mask_extent {a : FwdArgs} {reg : FwdRegistry} {gen : GenState}
    {out : FwdOutput} {gen2 : GenState} {s : Tensor}
    (h : (dropout_add_ln_fwd a reg gen).result = .ok (out, gen2))
    (hs : a.x0_subset_ = some s) (hdp : (0 : ℚ) < a.dropout_p) :
    out.dmask = some ⟨.uint8, [a.x0.size 0, fwd_cols a], true, true⟩ ∧
    out.x = some ⟨fwd_rtype a, [s.size 0, fwd_cols a], true, true⟩ ∧
    out.mu.sizes = [s.size 0] ∧
    out.rsigma.sizes = [s.size 0] ∧
    out.z.sizes = [a.z_numrows, fwd_cols a] ∧
    fwd_rows a = s.size 0 := by
  obtain ⟨hv, hp, hout, launcher, hl, hgen, htr⟩ := fwd_ok_cases h
  have parts := validate_none_parts hv
  have hdim : a.x0.dim = 2 := parts.2.2.2.1
  have hrows : fwd_rows a = s.size 0 := by
    unfold fwd_rows
    rw [hs]
  have hsx : save_x_cond a = true := by
    rw [save_x_cond_iff]
    right; right; right; right; left
    rw [hs]
    rfl
  have hzs : a.z_subset_.isSome = true := by
    obtain ⟨_, _, _, _, zs, hzs, _⟩ := check_subset_none parts.2.2.2.2.2.2.2.2.2.1 hs
    rw [hzs]
    rfl
  subst hout
  refine ⟨?_, ?_, ?_, ?_, ?_, hrows⟩
  · show (if (0 : ℚ) < a.dropout_p
        then some (⟨.uint8, a.x0.sizes, true, true⟩ : Tensor) else none) = _
    rw [if_pos hdp, x0_sizes_decomp hdim]
    rfl
  · show (if save_x_cond a
        then some (⟨fwd_rtype a, [fwd_rows a, fwd_cols a], true, true⟩ : Tensor)
        else none) = _
    rw [if_pos hsx, hrows]
  · show [fwd_rows a] = _
    rw [hrows]
  · show [fwd_rows a] = _
    rw [hrows]
  · show (if a.z_subset_.isSome
        then [a.z_numrows, fwd_cols a] else [fwd_rows a, fwd_cols a]) = _
    rw [if_pos hzs]

/-- Witness for C10 at the gather/scatter fixture with dropout active. -/
theorem gather_mask_extent_witness :
    (some (⟨.uint8, [4, 256], true, true⟩ : Tensor) : Option Tensor) =
      some ⟨.uint8, [args_subset.x0.size 0, fwd_cols args_subset], true, true⟩ ∧
    (some (⟨.fp32, [2, 256], true, true⟩ : Tensor) : Option Tensor) =
      some ⟨fwd_rtype args_subset,
        [(⟨.int32, [2], true, true⟩ : Tensor).size 0, fwd_cols args_subset],
        true, true⟩ ∧
    (⟨.fp32, [2], true, true⟩ : Tensor).sizes =
      [(⟨.int32, [2], true, true⟩ : Tensor).size 0] ∧
    (⟨.fp32, [2], true, true⟩ : Tensor).sizes =
      [(⟨.int32, [2], true, true⟩ : Tensor).size 0] ∧
    (⟨.fp32, [3, 256], true, true⟩ : Tensor).sizes =
      [args_subset.z_numrows, fwd_cols args_subset] ∧
    fwd_rows args_subset = (⟨.int32, [2], true, true⟩ : Tensor).size 0 :=
  @gather_mask_extent args_subset reg_small gen0
    ⟨⟨.fp32, [3, 256], true, true⟩, some ⟨.fp32, [2, 256], true, true⟩,
      some ⟨.uint8, [4, 256], true, true⟩, ⟨.fp32, [2], true, true⟩,
      ⟨.fp32, [2], true, true⟩⟩
    ⟨7, 15⟩ ⟨.int32, [2], true, true⟩
    (by decide) (by decide) (by decide)

end layer_norm
